import Mathlib

set_option maxHeartbeats 1000000
set_option linter.unusedVariables false

namespace Packreator

/-!
Shallow embedding of `packreator_processor/__init__.py`.

JSON-ish Python values are modelled by `PyVal`; operations that can raise a
Python exception are modelled in `Except String`, where the error string
stands for the exception's text.  The two external HTTP collaborators
(the CivitAI REST API and the OpenRouter completion endpoint) are modelled
as oracle parameters, and the standard-library `json.loads` is likewise an
oracle parameter (`jl`).
-/

/-- Python values as they appear in this program: `None`, ints, strings,
lists and string-keyed dicts (JSON objects). -/
inductive PyVal where
  | null : PyVal
  | int : Int → PyVal
  | str : String → PyVal
  | list : List PyVal → PyVal
  | dict : List (String × PyVal) → PyVal

/-- Python truthiness of a `PyVal` (`bool(x)`). -/
def pyTruthy : PyVal → Bool
  | .null => false
  | .int n => n != 0
  | .str s => s != ""
  | .list xs => !xs.isEmpty
  | .dict kvs => !kvs.isEmpty

/-- First-occurrence lookup in an association list (Python dicts have unique
keys, so first-occurrence lookup agrees with dict lookup). -/
def dictLookup (kvs : List (String × PyVal)) (k : String) : Option PyVal :=
  match kvs with
  | [] => Option.none
  | (k2, v) :: rest => if k2 = k then some v else dictLookup rest k

/-- Key lookup on a `PyVal`, `Option.none` when absent or not a dict. -/
def pyLookup (v : PyVal) (k : String) : Option PyVal :=
  match v with
  | .dict kvs => dictLookup kvs k
  | _ => Option.none

/-- Substring test on char lists (Python `needle in haystack` for strings). -/
def listContainsSub (needle : List Char) : List Char → Bool
  | [] => needle.isEmpty
  | c :: cs => needle.isPrefixOf (c :: cs) || listContainsSub needle cs

/-- Python `k in v` for a string `k`: key test on dicts, `==`-membership on
lists, substring test on strings; raises `TypeError` on `None`/ints. -/
def pyIn (k : String) : PyVal → Except String Bool
  | .dict kvs => .ok (dictLookup kvs k).isSome
  | .list xs => .ok (xs.any fun x => match x with | .str s => s = k | _ => false)
  | .str s => .ok (listContainsSub k.data s.data)
  | .null => .error "TypeError: argument of type NoneType is not iterable"
  | .int _ => .error "TypeError: argument of type int is not iterable"

/-- Python subscript `v[k]` with a string key. -/
def pyGetItemS (v : PyVal) (k : String) : Except String PyVal :=
  match v with
  | .dict kvs =>
    match dictLookup kvs k with
    | some x => .ok x
    | Option.none => .error ("KeyError: " ++ k)
  | .list _ => .error "TypeError: list indices must be integers or slices, not str"
  | .str _ => .error "TypeError: string indices must be integers"
  | .null => .error "TypeError: NoneType object is not subscriptable"
  | .int _ => .error "TypeError: int object is not subscriptable"

/-- Python subscript `v[0]` (the only integer subscript used by the code).
String-keyed dicts never hold the key `0`, so dicts raise `KeyError`. -/
def pyGetIdx0 (v : PyVal) : Except String PyVal :=
  match v with
  | .list [] => .error "IndexError: list index out of range"
  | .list (x :: _) => .ok x
  | .str s =>
    match s.data with
    | [] => .error "IndexError: string index out of range"
    | c :: _ => .ok (.str (String.mk [c]))
  | .dict _ => .error "KeyError: 0"
  | .null => .error "TypeError: NoneType object is not subscriptable"
  | .int _ => .error "TypeError: int object is not subscriptable"

/-- Python `len(v)`. -/
def pyLen : PyVal → Except String Nat
  | .list xs => .ok xs.length
  | .str s => .ok s.length
  | .dict kvs => .ok kvs.length
  | .null => .error "TypeError: object of type NoneType has no len()"
  | .int _ => .error "TypeError: object of type int has no len()"

/-- Python `v.get(k, dflt)`: dict method, `AttributeError` on anything else. -/
def pyGet (v : PyVal) (k : String) (dflt : PyVal) : Except String PyVal :=
  match v with
  | .dict kvs => .ok ((dictLookup kvs k).getD dflt)
  | _ => .error "AttributeError: object has no attribute get"

mutual

/-- Python `repr()` of a value (string escaping inside containers is not
reproduced; no claim inspects the repr of a container). -/
def pyRepr : PyVal → String
  | .null => "None"
  | .int n => toString n
  | .str s => "\x27" ++ s ++ "\x27"
  | .list xs => "[" ++ pyReprL xs ++ "]"
  | .dict kvs => "\x7b" ++ pyReprD kvs ++ "\x7d"

def pyReprL : List PyVal → String
  | [] => ""
  | [x] => pyRepr x
  | x :: y :: xs => pyRepr x ++ ", " ++ pyReprL (y :: xs)

def pyReprD : List (String × PyVal) → String
  | [] => ""
  | [(k, v)] => "\x27" ++ k ++ "\x27: " ++ pyRepr v
  | (k, v) :: kv :: kvs => "\x27" ++ k ++ "\x27: " ++ pyRepr v ++ ", " ++ pyReprD (kv :: kvs)

end

/-- Python `str()` of a value, as used by f-string interpolation. -/
def pyStr : PyVal → String
  | .str s => s
  | v => pyRepr v

/-- Python whitespace as stripped by `str.strip()` (ASCII fragment). -/
def pySpace (c : Char) : Bool :=
  c == ' ' || c == '\t' || c == '\n' || c == '\r' || c == '\x0b' || c == '\x0c'

/-- `str.strip()` on a char list. -/
def pyStripList (cs : List Char) : List Char :=
  ((cs.dropWhile pySpace).reverse.dropWhile pySpace).reverse

/-- `str.strip()`. -/
def pyStripStr (s : String) : String :=
  String.mk (pyStripList s.data)

/-- Numeric value of a digit string (`int()` on an all-digits string). -/
def strToNat (cs : List Char) : Nat :=
  cs.foldl (fun acc c => acc * 10 + (c.toNat - '0'.toNat)) 0

/-- One attempt of the search for `(?:urn:air:sdxl:lora:)?(?:civitai:)?(\d+)@(\d+)`
at the head of `cs`: a maximal digit run, then `@`, then a nonempty digit run.
The two optional prefixes contain no digit characters, so whether the regex
engine consumes them never changes the captured digit groups; the search is
therefore equivalent to looking for the leftmost digit run followed by
`@digit`. -/
def checkAir (cs : List Char) : Option (Nat × Nat) :=
  let run := cs.takeWhile Char.isDigit
  let rest := cs.dropWhile Char.isDigit
  if run.isEmpty then Option.none
  else
    match rest with
    | '@' :: rest2 =>
      let vrun := rest2.takeWhile Char.isDigit
      if vrun.isEmpty then Option.none else some (strToNat run, strToNat vrun)
    | _ => Option.none

/-- Leftmost match of the compound-identifier regex (`re.search` semantics):
try every start position left to right. -/
def airSearch : List Char → Option (Nat × Nat)
  | [] => Option.none
  | c :: cs =>
    match checkAir (c :: cs) with
    | some r => some r
    | Option.none => airSearch cs

/-- Characters that have the Unicode digit property without being decimal
digits: `str.isdigit()` accepts them, but `int()` raises `ValueError` on
them.  Modeled repertoire: the superscript digits (U+00B2, U+00B3, U+00B9,
U+2070, U+2074..U+2079), the subscript digits (U+2080..U+2089) and the
circled digits (U+2460..U+2468); all of them lie outside ASCII. -/
def nonDecDigitChar (c : Char) : Bool :=
  c.toNat == 0xb2 || c.toNat == 0xb3 || c.toNat == 0xb9 || c.toNat == 0x2070 ||
    (decide (0x2074 ≤ c.toNat) && decide (c.toNat ≤ 0x2079)) ||
    (decide (0x2080 ≤ c.toNat) && decide (c.toNat ≤ 0x2089)) ||
    (decide (0x2460 ≤ c.toNat) && decide (c.toNat ≤ 0x2468))

/-- A character accepted by `str.isdigit()`: a decimal digit or a
non-decimal digit character (non-ASCII decimal digits such as the
Arabic-Indic ones are outside the modeled repertoire). -/
def pyDigitChar (c : Char) : Bool :=
  c.isDigit || nonDecDigitChar c

/-- `str.isdigit()`: nonempty and all digit-property characters. -/
def pyIsDigitStr (cs : List Char) : Bool :=
  !cs.isEmpty && cs.all pyDigitChar

/-- Rest of an `int()` digit run: decimal digits, with a single underscore
allowed between two digits (`int('1_2') == 12`, `int('1__2')` raises). -/
def intDigitsRest : List Char → Bool
  | [] => true
  | d :: rest =>
    if d = '_' then
      match rest with
      | [] => false
      | d2 :: rest2 => d2.isDigit && intDigitsRest rest2
    else d.isDigit && intDigitsRest rest

/-- The digit run of an `int()` literal after the optional sign. -/
def intDigits : List Char → Bool
  | [] => false
  | c :: cs => c.isDigit && intDigitsRest cs

/-- Numeric value of an `int()` digit run, underscores dropped. -/
def intVal (cs : List Char) : Int :=
  (strToNat (cs.filter fun c => c != '_') : Nat)

/-- Python `int(s)` on a string: strip whitespace, optional sign, then
decimal digits with optional underscore separators; `Option.none` models
the `ValueError` raise.  Non-decimal digit characters (which
`str.isdigit()` accepts) are rejected here, as `int()` rejects them. -/
def pyIntOfString (s : String) : Option Int :=
  match pyStripList s.data with
  | [] => Option.none
  | c :: ds =>
    if c = '-' then (if intDigits ds then some (-intVal ds) else Option.none)
    else if c = '+' then (if intDigits ds then some (intVal ds) else Option.none)
    else if intDigits (c :: ds) then some (intVal (c :: ds)) else Option.none

/-- Characters allowed in a URL scheme (`urllib.parse.scheme_chars`). -/
def schemeChar (c : Char) : Bool :=
  c.isAlpha || c.isDigit || c == '+' || c == '-' || c == '.'

/-- Split a char list at the first occurrence of `sep`: returns the part
before it and, when `sep` occurs, the part after it. -/
def splitAtFirst (sep : Char) : List Char → List Char × Option (List Char)
  | [] => ([], Option.none)
  | c :: cs =>
    if c = sep then ([], some cs)
    else
      match splitAtFirst sep cs with
      | (pre, rest) => (c :: pre, rest)

/-- Split a char list at the last occurrence of `sep`, when it occurs. -/
def splitAtLast (sep : Char) (cs : List Char) : Option (List Char × List Char) :=
  match splitAtFirst sep cs.reverse with
  | (post, some pre) => some (pre.reverse, post.reverse)
  | (_, Option.none) => Option.none

/-- Python `str.split(sep)` for a single separator character. -/
def splitOnChar (sep : Char) : List Char → List (List Char)
  | [] => [[]]
  | c :: cs =>
    if c = sep then [] :: splitOnChar sep cs
    else
      match splitOnChar sep cs with
      | [] => [[c]]
      | g :: gs => (c :: g) :: gs

/-- Value of a hex digit character, when it is one. -/
def hexVal (c : Char) : Option Nat :=
  if c.isDigit then some (c.toNat - '0'.toNat)
  else if 'a' ≤ c ∧ c ≤ 'f' then some (c.toNat - 'a'.toNat + 10)
  else if 'A' ≤ c ∧ c ≤ 'F' then some (c.toNat - 'A'.toNat + 10)
  else Option.none

/-- `urllib.parse.unquote_plus` (ASCII fragment): `+` becomes a space and
`%hh` hex pairs are decoded; malformed escapes are kept literally. -/
def pyUnquotePlus : List Char → List Char
  | [] => []
  | '+' :: rest => ' ' :: pyUnquotePlus rest
  | '%' :: c1 :: c2 :: rest =>
    match hexVal c1, hexVal c2 with
    | some h1, some h2 => Char.ofNat (16 * h1 + h2) :: pyUnquotePlus rest
    | _, _ => '%' :: pyUnquotePlus (c1 :: c2 :: rest)
  | c :: rest => c :: pyUnquotePlus rest

/-- `urlparse`'s `_splitparams`: drop a `;params` suffix from the last path
segment. -/
def splitParams (cs : List Char) : List Char :=
  match splitAtLast '/' cs with
  | some (before, lastSeg) =>
    match splitAtFirst ';' lastSeg with
    | (pre, some _) => before ++ '/' :: pre
    | (_, Option.none) => cs
  | Option.none =>
    match splitAtFirst ';' cs with
    | (pre, some _) => pre
    | (_, Option.none) => cs

/-- The components of `urllib.parse.urlparse` that this program reads. -/
structure ParsedUrl where
  path : List Char
  query : List Char

/-- `urllib.parse.urlparse` (the fragment of its behaviour this program
depends on): optional scheme, optional `//netloc`, then fragment, query and
path-params splitting. -/
def pyUrlparse (cs : List Char) : ParsedUrl :=
  let cs1 :=
    match splitAtFirst ':' cs with
    | (pre, some rest) =>
      if !pre.isEmpty && (pre.headD ' ').isAlpha && pre.all schemeChar then rest else cs
    | (_, Option.none) => cs
  let cs2 :=
    match cs1 with
    | '/' :: '/' :: rest => rest.dropWhile fun c => c != '/' && c != '?' && c != '#'
    | _ => cs1
  let cs3 := (splitAtFirst '#' cs2).1
  let pq := splitAtFirst '?' cs3
  { path := splitParams pq.1, query := pq.2.getD [] }

/-- `urllib.parse.parse_qs` as a list of (name, value) pairs: split on `&`,
keep only chunks with an `=` and a nonempty value, unquote both sides
(`keep_blank_values=False`, the default used by the code). -/
def qsPairs (query : List Char) : List (List Char × List Char) :=
  (splitOnChar '&' query).filterMap fun chunk =>
    match splitAtFirst '=' chunk with
    | (name, some value) =>
      if value.isEmpty then Option.none
      else some (pyUnquotePlus name, pyUnquotePlus value)
    | (_, Option.none) => Option.none

/-- The list of values bound to key `k` by `parse_qs`, in order. -/
def qsValues (pairs : List (List Char × List Char)) (k : List Char) : List (List Char) :=
  pairs.filterMap fun nv => if nv.1 = k then some nv.2 else Option.none

/-- Rest of the list after the first element equal to `k`, when `k` occurs
(models `parts.index(k)` followed by a look at `parts[i + 1]`). -/
def afterFirst (k : List Char) : List (List Char) → Option (List (List Char))
  | [] => Option.none
  | p :: ps => if p = k then some ps else afterFirst k ps

/-- Lines 52-73 of `parse_civitai_input`: the URL branch inside the
`try`.  The `.error` cases model the exceptions it can raise — all of
them `ValueError` from `int()`, on a non-numeric `modelVersionId` value
or on an `isdigit()`-true path segment containing non-decimal digit
characters. -/
def urlBranch (t : String) : Except String (Option Int × Option Int) :=
  let u := pyUrlparse t.data
  let path_parts := (splitOnChar '/' u.path).filter fun p => !p.isEmpty
  let query_params := qsPairs u.query
  let vq : Except String (Option Int) :=
    match qsValues query_params "modelVersionId".data with
    | [] => .ok Option.none
    | v0 :: _ =>
      match pyIntOfString (String.mk v0) with
      | some n => .ok (some n)
      | Option.none => .error "ValueError: invalid literal for int() with base 10"
  match vq with
  | .error e => .error e
  | .ok version_id0 =>
    let mq : Except String (Option Int) :=
      match afterFirst "models".data path_parts with
      | some (nxt :: _) =>
        if pyIsDigitStr nxt then
          match pyIntOfString (String.mk nxt) with
          | some n => .ok (some n)
          | Option.none => .error "ValueError: invalid literal for int() with base 10"
        else .ok Option.none
      | _ => .ok Option.none
    match mq with
    | .error e => .error e
    | .ok model_id =>
      let vTruthy : Bool := match version_id0 with | some n => n != 0 | Option.none => false
      let vq2 : Except String (Option Int) :=
        if !vTruthy then
          match afterFirst "model-versions".data path_parts with
          | some (nxt :: _) =>
            if pyIsDigitStr nxt then
              match pyIntOfString (String.mk nxt) with
              | some n => .ok (some n)
              | Option.none => .error "ValueError: invalid literal for int() with base 10"
            else .ok version_id0
          | _ => .ok version_id0
        else .ok version_id0
      match vq2 with
      | .error e => .error e
      | .ok version_id => .ok (model_id, version_id)

/-- `parse_civitai_input` (lines 38-75): compound `model@version` pattern
first, then the bare-digits branch, then the URL branch with its
exceptions swallowed to `(None, None)`.  The bare-digits branch (lines
49-50) is OUTSIDE the `try`, so `int()` raising there — which happens
when the input passes `isdigit()` but contains a non-decimal digit
character such as `'²'` — escapes the function; `.error` models that
uncaught `ValueError`. -/
def parse_civitai_input (url_or_id : String) : Except String (Option Int × Option Int) :=
  let t := pyStripStr url_or_id
  if t = "" then .ok (Option.none, Option.none)
  else
    match airSearch t.data with
    | some (m, v) => .ok (some (m : Int), some (v : Int))
    | Option.none =>
      if pyIsDigitStr t.data then
        match pyIntOfString t with
        | some n => .ok (some n, Option.none)
        | Option.none => .error "ValueError: invalid literal for int() with base 10"
      else
        match urlBranch t with
        | .ok r => .ok r
        | .error _ => .ok (Option.none, Option.none)

/-- A single-key error dict, the uniform error value of the code. -/
def errdict (s : String) : PyVal := .dict [("error", .str s)]

/-- An optional parsed id as the Python value held by the local variable. -/
def optToPy : Option Int → PyVal
  | Option.none => .null
  | some n => .int n

/-- The CivitAI REST API as an oracle: `_request` returns a parsed JSON
value or `None`; requests never raise (`CivitaiAPI._request` catches all
request exceptions).  Keys are the Python values interpolated into the URL
(`/models/{model_id}`, `/model-versions/{version_id}`). -/
structure Orc where
  model : PyVal → Option PyVal
  version : PyVal → Option PyVal

/-- Lines 87-92 of `get_civitai_details`: when the model id is falsy and a
version id is present, fetch the version record and adopt its `modelId`.
`.inl` is the early error-dict return, `.inr` the resolved model id. -/
def adoptModelId (orc : Orc) (m v : PyVal) : Except String (PyVal ⊕ PyVal) :=
  if !pyTruthy m && pyTruthy v then
    let failMsg := "Não foi possível encontrar o modelo para a versão ID " ++ pyStr v ++ "."
    match orc.version v with
    | Option.none => .ok (.inl (errdict failMsg))
    | some temp =>
      if pyTruthy temp then
        match pyIn "modelId" temp with
        | .error e => .error e
        | .ok true =>
          match pyGetItemS temp "modelId" with
          | .error e => .error e
          | .ok mid => .ok (.inr mid)
        | .ok false => .ok (.inl (errdict failMsg))
      else .ok (.inl (errdict failMsg))
  else .ok (.inr m)

/-- Lines 98-104 of `get_civitai_details`: when the version id is falsy,
default it to the id of the first entry of the model's `modelVersions`
list.  `.inl` is the early error-dict return, `.inr` the resolved
version id. -/
def defaultVersion (mi v : PyVal) : Except String (PyVal ⊕ PyVal) :=
  if !pyTruthy v then
    match pyGet mi "modelVersions" .null with
    | .error e => .error e
    | .ok mv =>
      if pyTruthy mv then
        match pyGetItemS mi "modelVersions" with
        | .error e => .error e
        | .ok mv2 =>
          match pyLen mv2 with
          | .error e => .error e
          | .ok n =>
            if n > 0 then
              match pyGetItemS mi "modelVersions" with
              | .error e => .error e
              | .ok mv3 =>
                match pyGetIdx0 mv3 with
                | .error e => .error e
                | .ok first =>
                  match pyGet first "id" .null with
                  | .error e => .error e
                  | .ok vid =>
                    if pyTruthy vid then .ok (.inr vid)
                    else .ok (.inl (errdict "Não foi possível encontrar o ID na versão mais recente."))
            else .ok (.inl (errdict "O modelo não tem nenhuma versão listada."))
      else .ok (.inl (errdict "O modelo não tem nenhuma versão listada."))
  else .ok (.inr v)

/-- The `try` block of `get_civitai_details` (lines 86-108).  `.error` is a
raised exception (caught by the `except` at line 110), `.ok (.inl d)` an
early `return` of an error dict, `.ok (.inr (mi, m1, vi, v1))` reaching
line 113 with model info `mi`, model id `m1`, version info `vi` and
version id `v1`. -/
def tryBlock (orc : Orc) (m v : PyVal) :
    Except String (PyVal ⊕ (PyVal × PyVal × PyVal × PyVal)) :=
  match adoptModelId orc m v with
  | .error e => .error e
  | .ok (.inl d) => .ok (.inl d)
  | .ok (.inr m1) =>
    let modelFail := errdict ("Falha ao buscar informações do modelo ID " ++ pyStr m1 ++ ".")
    match orc.model m1 with
    | Option.none => .ok (.inl modelFail)
    | some mi =>
      if !pyTruthy mi then .ok (.inl modelFail)
      else
        match pyIn "error" mi with
        | .error e => .error e
        | .ok true => .ok (.inl modelFail)
        | .ok false =>
          match defaultVersion mi v with
          | .error e => .error e
          | .ok (.inl d) => .ok (.inl d)
          | .ok (.inr v1) =>
            let versionFail := errdict ("Falha ao buscar informações da versão ID " ++ pyStr v1 ++ ".")
            match orc.version v1 with
            | Option.none => .ok (.inl versionFail)
            | some vi =>
              if !pyTruthy vi then .ok (.inl versionFail)
              else
                match pyIn "error" vi with
                | .error e => .error e
                | .ok true => .ok (.inl versionFail)
                | .ok false => .ok (.inr (mi, m1, vi, v1))

/-- Scan for the closing `>` of a tag: any characters except `<` may
precede it; a `<` or the end of input means no match. -/
def scanClose : List Char → Option (List Char)
  | [] => Option.none
  | c :: cs => if c = '>' then some cs else if c = '<' then Option.none else scanClose cs

/-- After an opening `<`, match `[^<]+?>` lazily: at least one non-`<`
character, up to the first `>`; returns the rest of the input. -/
def tagEnd : List Char → Option (List Char)
  | [] => Option.none
  | c :: cs => if c = '<' then Option.none else scanClose cs

/-- `re.sub('<[^<]+?>', '', s)`: remove every leftmost non-overlapping tag
match.  Fuel-driven structural recursion; the fuel (the input length) never
runs out because each match consumes at least one character. -/
def stripTagsGo : Nat → List Char → List Char
  | _, [] => []
  | 0, l => l
  | fuel + 1, c :: cs =>
    if c = '<' then
      match tagEnd cs with
      | some rest2 => stripTagsGo fuel rest2
      | Option.none => c :: stripTagsGo fuel cs
    else c :: stripTagsGo fuel cs

/-- The permissive HTML-tag-stripping pass of line 117. -/
def stripTags (cs : List Char) : List Char :=
  stripTagsGo cs.length cs

/-- Lines 113-128 of `get_civitai_details`, outside the `try`: build the
metadata bundle.  A raise here (`.error`) escapes `get_civitai_details`. -/
def buildBundle (mi m1 vi v1 : PyVal) : Except String PyVal :=
  match pyGet mi "name" (.str "N/A") with
  | .error e => .error e
  | .ok model_name =>
    match pyGet vi "name" (.str "N/A") with
    | .error e => .error e
    | .ok version_name =>
      match pyGet mi "description" .null with
      | .error e => .error e
      | .ok description_html =>
        let descE : Except String String :=
          if pyTruthy description_html then
            match description_html with
            | .str s => .ok (String.mk (pyStripList (stripTags s.data)))
            | _ => .error "TypeError: expected string or bytes-like object"
          else .ok "Nenhuma descrição fornecida."
        match descE with
        | .error e => .error e
        | .ok description_text =>
          match pyGet vi "trainedWords" (.list []) with
          | .error e => .error e
          | .ok trained_words =>
            .ok (.dict [("model_name", model_name),
              ("version_name", version_name),
              ("model_id", m1),
              ("version_id", v1),
              ("air_id", .str (pyStr m1 ++ "@" ++ pyStr v1)),
              ("description", .str description_text),
              ("trained_words", trained_words)])

/-- `get_civitai_details` (lines 77-128) over the API oracle.  `.error`
models an exception escaping the function: a raise out of
`parse_civitai_input` at line 79 (which sits before the `try` at line
86) or a raise in the bundle-building code after the `try`. -/
def get_civitai_details (orc : Orc) (link_ou_id : String) : Except String PyVal :=
  match parse_civitai_input link_ou_id with
  | .error e => .error e
  | .ok ids =>
    let m := optToPy ids.1
    let v := optToPy ids.2
    if !pyTruthy m && !pyTruthy v then
      .ok (errdict "Não foi possível extrair um ID de modelo ou versão válido da entrada.")
    else
      match tryBlock orc m v with
      | .error e => .ok (errdict ("Erro ao processar: " ++ e))
      | .ok (.inl d) => .ok d
      | .ok (.inr (mi, m1, vi, v1)) => buildBundle mi m1 vi v1

/-- `re.search(r'\x7b.*\x7d', content, re.DOTALL)`: from the first opening
brace that has a closing brace after it, greedily to the last closing
brace of the string. -/
def braceExtract (s : String) : Option String :=
  match s.data.dropWhile (fun c => c != '{') with
  | [] => Option.none
  | b :: tail =>
    match (tail.reverse.dropWhile fun c => c != '}') with
    | [] => Option.none
    | closed => some (String.mk (b :: closed.reverse))

/-- The body of `call_openrouter_api` after a successful POST (lines
160-174), with `result` the parsed response JSON and `jl` the `json.loads`
oracle.  `.error` is a raised exception other than `JSONDecodeError`,
caught by the generic `except` at line 178. -/
def callBody (result : PyVal) (jl : String → Option PyVal) : Except String PyVal :=
  let unexpected : PyVal :=
    .dict [("error", .str "Resposta inesperada da API"), ("raw_response", result)]
  match pyIn "choices" result with
  | .error e => .error e
  | .ok false => .ok unexpected
  | .ok true =>
    match pyGetItemS result "choices" with
    | .error e => .error e
    | .ok choices =>
      match pyLen choices with
      | .error e => .error e
      | .ok n =>
        if n > 0 then
          match pyGetItemS result "choices" with
          | .error e => .error e
          | .ok choices2 =>
            match pyGetIdx0 choices2 with
            | .error e => .error e
            | .ok c0 =>
              match pyGetItemS c0 "message" with
              | .error e => .error e
              | .ok msg =>
                match pyGetItemS msg "content" with
                | .error e => .error e
                | .ok content =>
                  match content with
                  | .str cs =>
                    match braceExtract cs with
                    | some sub =>
                      match jl sub with
                      | some parsed => .ok parsed
                      | Option.none =>
                        .ok (.dict [("error", .str "Erro ao decodificar JSON da resposta"),
                          ("raw_response", content)])
                    | Option.none =>
                      .ok (.dict [("error", .str "Resposta da LLM não contém JSON válido"),
                        ("raw_response", content)])
                  | _ => .error "TypeError: expected string or bytes-like object"
        else .ok unexpected

/-- `call_openrouter_api` (lines 130-179): `http` is the outcome of the
POST (`.error` a transport failure, `.ok` the parsed response body); all
other exceptions are converted to the generic error dict.  The function
never raises. -/
def call_openrouter_api (http : Except String PyVal) (jl : String → Option PyVal) : PyVal :=
  match http with
  | .error e => .dict [("error", .str ("Erro na requisição: " ++ e))]
  | .ok result =>
    match callBody result jl with
    | .ok v => v
    | .error e => .dict [("error", .str ("Erro inesperado: " ++ e))]

/-- Element-wise `'- ' + word` over the trained-words list: raises
`TypeError` at the first non-string element, like the generator inside
`join` at line 238. -/
def dashWords : List PyVal → Except String (List String)
  | [] => .ok []
  | w :: ws =>
    match w with
    | .str s =>
      match dashWords ws with
      | .ok rest => .ok (("- " ++ s) :: rest)
      | .error e => .error e
    | _ => .error "TypeError: can only concatenate str (not int) to str"

/-- Python iteration of `'- ' + word for word in trained_words`: lists
element-wise, strings over their characters, dicts over their keys,
`TypeError` on `None`/ints. -/
def iterWords : PyVal → Except String (List String)
  | .list xs => dashWords xs
  | .str s => .ok (s.data.map fun c => "- " ++ String.mk [c])
  | .dict kvs => .ok (kvs.map fun kv => "- " ++ kv.1)
  | .null => .error "TypeError: NoneType object is not iterable"
  | .int _ => .error "TypeError: int object is not iterable"

/-- The f-string building `user_content` (lines 229-238); outside any
`try`, so a `TypeError` from the trained-words join escapes the entry
point. -/
def buildUserContent (additional_info : String) (civ : PyVal) : Except String String :=
  match pyGetItemS civ "model_name" with
  | .error e => .error e
  | .ok mn =>
    match pyGetItemS civ "version_name" with
    | .error e => .error e
    | .ok vn =>
      match pyGetItemS civ "air_id" with
      | .error e => .error e
      | .ok air =>
        match pyGetItemS civ "description" with
        | .error e => .error e
        | .ok desc =>
          match pyGetItemS civ "trained_words" with
          | .error e => .error e
          | .ok tw =>
            match iterWords tw with
            | .error e => .error e
            | .ok words =>
              .ok ("USER INFO: " ++ additional_info ++
                "\nModelo: " ++ pyStr mn ++
                "\nVersão: " ++ pyStr vn ++
                "\nID AIR: civitai:" ++ pyStr air ++
                "\n----------------------------------------\nDescrição:\n" ++ pyStr desc ++
                "\n----------------------------------------\nPalavras de Gatilho:\n" ++
                String.intercalate "\n" words)

/-- The built-in default system prompt (lines 242-250). -/
def defaultSystemPrompt : String :=
  "Você é um assistente especializado em processar informações de modelos LORA do CivitAI. \n" ++
  "            Analise as informações fornecidas e extraia dados estruturados sobre personagens e suas roupas.\n" ++
  "            \n" ++
  "            Retorne APENAS um JSON válido com as seguintes chaves:\n" ++
  "            - character_name: nome simples do personagem em lowercase com underscores\n" ++
  "            - character_description: características físicas básicas (sem \"solo\", sem roupas)\n" ++
  "            - s1: todas as roupas separadas por /cut, com versão sem sapatos quando aplicável\n" ++
  "            - s2: roupa principal /cut _tokenClothing /cut _tokenClothing2\n" ++
  "            - s3: roupa principal /cut _tokenClothing /cut _tokenClothing2"

/-- `CivitAIInfoProcessor.process_civitai_info` (lines 220-272).  The
result is the six-slot output tuple as a list; `.error` models an
exception escaping the node entry point. -/
def process_civitai_info (orc : Orc) (http : Except String PyVal)
    (jl : String → Option PyVal)
    (link_or_id openrouter_token additional_info system_prompt : String) :
    Except String (List PyVal) :=
  match get_civitai_details orc link_or_id with
  | .error e => .error e
  | .ok civ =>
    match pyIn "error" civ with
    | .error e => .error e
    | .ok true =>
      match pyGetItemS civ "error" with
      | .error e => .error e
      | .ok msg => .ok [msg, msg, msg, msg, msg, msg]
    | .ok false =>
      match buildUserContent additional_info civ with
      | .error e => .error e
      | .ok _user_content =>
        let _sys := if pyStripStr system_prompt = "" then defaultSystemPrompt else system_prompt
        let llm := call_openrouter_api http jl
        match pyIn "error" llm with
        | .error e => .error e
        | .ok true =>
          match pyGetItemS llm "error" with
          | .error e => .error e
          | .ok ev =>
            let msg := PyVal.str ("Erro LLM: " ++ pyStr ev)
            .ok [msg, msg, msg, msg, msg, msg]
        | .ok false =>
          let mappedE : Except String (List PyVal) :=
            match pyGetItemS civ "air_id" with
            | .error e => .error e
            | .ok air =>
              match pyGet llm "character_name" (.str "unknown_character") with
              | .error e => .error e
              | .ok cn =>
                match pyGet llm "character_description" (.str "") with
                | .error e => .error e
                | .ok cd =>
                  match pyGet llm "s1" (.str "") with
                  | .error e => .error e
                  | .ok s1 =>
                    match pyGet llm "s2" (.str "") with
                    | .error e => .error e
                    | .ok s2 =>
                      match pyGet llm "s3" (.str "") with
                      | .error e => .error e
                      | .ok s3 => .ok [air, cn, cd, s1, s2, s3]
          match mappedE with
          | .ok out => .ok out
          | .error e =>
            let msg := PyVal.str ("Erro ao processar resposta: " ++ e)
            .ok [msg, msg, msg, msg, msg, msg]

/-! ### Shape predicates used by the theorems -/

/-- The value is a Python string. -/
def IsStr (v : PyVal) : Prop := ∃ s, v = .str s

/-- The value is a dict. -/
def IsDict (v : PyVal) : Prop := ∃ kvs, v = .dict kvs

/-- The value is a list of strings. -/
def StrList (v : PyVal) : Prop := ∃ xs, v = .list xs ∧ ∀ w ∈ xs, IsStr w

/-- The value is one of the single-key error dicts of the code. -/
def IsErrDict (d : PyVal) : Prop := ∃ s, d = errdict s

/-- Shape of a successful metadata bundle as built at lines 120-128. -/
def GoodBundle (d : PyVal) : Prop :=
  ∃ mn vn n vv ds tw,
    d = PyVal.dict [("model_name", mn), ("version_name", vn),
      ("model_id", PyVal.int n), ("version_id", vv),
      ("air_id", .str (pyStr (PyVal.int n) ++ "@" ++ pyStr vv)),
      ("description", .str ds), ("trained_words", tw)] ∧
    StrList tw ∧ pyTruthy vv = true

/-- Well-typedness of a model record per the spec's data model: a dict
whose `description`, when present, is null or a string. -/
def ModelRecOK (v : PyVal) : Prop :=
  IsDict v ∧ ∀ d, pyLookup v "description" = some d → d = .null ∨ IsStr d

/-- Well-typedness of a version record per the spec's data model: a dict
whose `modelId`, when present, is an integer, and whose `trainedWords`,
when present, is a list of strings. -/
def VersionRecOK (v : PyVal) : Prop :=
  IsDict v ∧ (∀ x, pyLookup v "modelId" = some x → ∃ n, x = .int n) ∧
    (∀ x, pyLookup v "trainedWords" = some x → StrList x)

/-- The platform oracle only returns well-typed records. -/
def OracleOK (orc : Orc) : Prop :=
  (∀ k v, orc.model k = some v → ModelRecOK v) ∧
    (∀ k v, orc.version k = some v → VersionRecOK v)

/-- The `json.loads` oracle only returns objects with string values, per
the spec's annotation-result data model. -/
def LlmJsonOK (jl : String → Option PyVal) : Prop :=
  ∀ s v, jl s = some v → IsDict v ∧ ∀ k x, pyLookup v k = some x → IsStr x

/-- The keys the processing unit reads off the annotation result. -/
def slotKeys : List String :=
  ["character_name", "character_description", "s1", "s2", "s3"]

/-- Shape of every value `call_openrouter_api` can return: a dict whose
`error` value, when present, is a string, and whose five slot-key values,
when present, are strings. -/
def LlmRespOK (r : PyVal) : Prop :=
  IsDict r ∧ (∀ x, pyLookup r "error" = some x → IsStr x) ∧
    (∀ k x, k ∈ slotKeys → pyLookup r k = some x → IsStr x)

/-! ### Concrete data used by witnesses and counterexamples -/

/-- A model record with an HTML description. -/
def recMA : PyVal :=
  .dict [("name", .str "M"), ("description", .str "<p>Hello <b>world</b></p>"),
    ("modelVersions", .list [.dict [("id", .int 34)]])]

/-- A version record with a model id and trained words. -/
def recVA : PyVal :=
  .dict [("name", .str "V"), ("modelId", .int 12), ("trainedWords", .list [.str "w1"])]

/-- An oracle that answers every request with the records above. -/
def orcA : Orc := { model := fun _ => some recMA, version := fun _ => some recVA }

/-- A model record without a description and a version record without
trained words. -/
def orcC : Orc :=
  { model := fun _ => some (.dict [("name", .str "M")]),
    version := fun _ => some (.dict [("name", .str "V")]) }

/-- A version record lacking the `modelId` field. -/
def orcB : Orc :=
  { model := fun _ => some (.dict [("name", .str "M")]),
    version := fun _ => some (.dict [("name", .str "V")]) }

/-- A model record whose version list is empty. -/
def orcD : Orc :=
  { model := fun _ => some (.dict [("name", .str "M"), ("modelVersions", .list [])]),
    version := fun _ => some (.dict [("name", .str "V")]) }

/-- A completion-endpoint response whose message content is just `"{}"`. -/
def httpA : Except String PyVal :=
  .ok (.dict [("choices", .list [.dict [("message", .dict [("content", .str "\x7b\x7d")])]])])

/-- A `json.loads` oracle defined exactly at `"{}"`. -/
def jlA : String → Option PyVal :=
  fun s => if s = "\x7b\x7d" then some (.dict []) else Option.none

/-- The content string of claim C9. -/
def contentC9 : String := "noise \x7b\"character_name\":\"x\"\x7d trailing"

/-- The completion-endpoint response of claim C9. -/
def resultC9 : PyVal :=
  .dict [("choices", .list [.dict [("message", .dict [("content", .str contentC9)])]])]

/-- The JSON object embedded in `contentC9`. -/
def objC9 : PyVal := .dict [("character_name", .str "x")]

/-- A `json.loads` oracle defined exactly at the C9 brace substring. -/
def jlC9 : String → Option PyVal :=
  fun s => if s = "\x7b\"character_name\":\"x\"\x7d" then some objC9 else Option.none

/-- A completion response carrying a full annotation object, and its
`json.loads` oracle. -/
def contentC4 : String := "\x7b\"character_name\":\"zoe\",\"s1\":\"a\"\x7d"

def httpC4 : Except String PyVal :=
  .ok (.dict [("choices", .list [.dict [("message", .dict [("content", .str contentC4)])]])])

def objC4 : PyVal := .dict [("character_name", .str "zoe"), ("s1", .str "a")]

def jlC4 : String → Option PyVal :=
  fun s => if s = contentC4 then some objC4 else Option.none

/-! ### Helper lemmas about the character-level scanners -/

theorem truthy_ne_null {v : PyVal} (h : pyTruthy v = true) : v ≠ .null := by
  intro he
  subst he
  simp [pyTruthy] at h

theorem digit_not_space {c : Char} (h : c.isDigit = true) : pySpace c = false := by
  cases hs : pySpace c
  · rfl
  · exfalso
    simp only [pySpace, Bool.or_eq_true, beq_iff_eq] at hs
    rcases hs with ((((h4 | h4) | h4) | h4) | h4) | h4 <;> subst h4 <;>
      exact absurd h (by decide)

theorem dropWhile_all_false {p : Char → Bool} {cs : List Char}
    (h : ∀ c ∈ cs, p c = false) : cs.dropWhile p = cs := by
  induction cs with
  | nil => rfl
  | cons c cs ih =>
    simp only [List.dropWhile_cons, h c (by simp)]
    simp

theorem pyStripList_eq_self {cs : List Char} (h : ∀ c ∈ cs, pySpace c = false) :
    pyStripList cs = cs := by
  unfold pyStripList
  rw [dropWhile_all_false h, dropWhile_all_false (fun c hc => h c (List.mem_reverse.mp hc)),
    List.reverse_reverse]

theorem takeWhile_all_true {p : Char → Bool} {cs : List Char}
    (h : ∀ c ∈ cs, p c = true) : cs.takeWhile p = cs := by
  induction cs with
  | nil => rfl
  | cons c cs ih =>
    simp only [List.takeWhile_cons, h c (by simp), if_true]
    rw [ih fun x hx => h x (by simp [hx])]

theorem dropWhile_all_true {p : Char → Bool} {cs : List Char}
    (h : ∀ c ∈ cs, p c = true) : cs.dropWhile p = [] := by
  induction cs with
  | nil => rfl
  | cons c cs ih =>
    simp only [List.dropWhile_cons, h c (by simp), if_true]
    exact ih fun x hx => h x (by simp [hx])

theorem takeWhile_append_stop {p : Char → Bool} {ms rest : List Char} {r : Char}
    (h : ∀ c ∈ ms, p c = true) (hr : p r = false) :
    (ms ++ r :: rest).takeWhile p = ms ∧ (ms ++ r :: rest).dropWhile p = r :: rest := by
  induction ms with
  | nil => simp [List.takeWhile_cons, List.dropWhile_cons, hr]
  | cons c ms ih =>
    have hih := ih fun x hx => h x (by simp [hx])
    simp only [List.cons_append, List.takeWhile_cons, List.dropWhile_cons, h c (by simp), if_true]
    exact ⟨by rw [hih.1], by rw [hih.2]⟩

theorem checkAir_not_digit {c : Char} {cs : List Char} (h : c.isDigit = false) :
    checkAir (c :: cs) = Option.none := by
  unfold checkAir
  simp [List.takeWhile_cons, h]

theorem airSearch_append_nondigit {pre : List Char} (h : ∀ c ∈ pre, c.isDigit = false)
    (rest : List Char) : airSearch (pre ++ rest) = airSearch rest := by
  induction pre with
  | nil => rfl
  | cons c pre ih =>
    have hc : c.isDigit = false := h c (by simp)
    simp only [List.cons_append, airSearch, checkAir_not_digit hc]
    exact ih fun x hx => h x (by simp [hx])

theorem checkAir_compound {ms vs : List Char} (hms : ms ≠ []) (hvs : vs ≠ [])
    (hdm : ∀ c ∈ ms, c.isDigit = true) (hdv : ∀ c ∈ vs, c.isDigit = true) :
    checkAir (ms ++ '@' :: vs) = some (strToNat ms, strToNat vs) := by
  have hstop := @takeWhile_append_stop Char.isDigit ms vs '@' hdm (by decide)
  unfold checkAir
  simp only [hstop.1, hstop.2]
  rw [if_neg (by simp [List.isEmpty_iff, hms])]
  simp only [takeWhile_all_true hdv]
  rw [if_neg (by simp [List.isEmpty_iff, hvs])]

theorem airSearch_compound {ms vs : List Char} (hms : ms ≠ []) (hvs : vs ≠ [])
    (hdm : ∀ c ∈ ms, c.isDigit = true) (hdv : ∀ c ∈ vs, c.isDigit = true) :
    airSearch (ms ++ '@' :: vs) = some (strToNat ms, strToNat vs) := by
  cases ms with
  | nil => exact absurd rfl hms
  | cons m0 ms2 =>
    have hca := @checkAir_compound (m0 :: ms2) vs hms hvs hdm hdv
    simp only [List.cons_append] at hca ⊢
    unfold airSearch
    rw [hca]

theorem airSearch_all_digits {cs : List Char} (h : ∀ c ∈ cs, c.isDigit = true) :
    airSearch cs = Option.none := by
  induction cs with
  | nil => rfl
  | cons c cs ih =>
    have hrun : (c :: cs).takeWhile Char.isDigit = c :: cs := takeWhile_all_true h
    have hrest : (c :: cs).dropWhile Char.isDigit = [] := dropWhile_all_true h
    unfold airSearch checkAir
    simp only [hrun, hrest]
    rw [if_neg (by simp)]
    exact ih fun x hx => h x (by simp [hx])

theorem string_mk_ne_empty {cs : List Char} (h : cs ≠ []) : String.mk cs ≠ "" := by
  intro he
  have := congrArg String.data he
  simp at this
  exact h this

theorem mem_dropWhile_subset {p : Char → Bool} {c : Char} :
    ∀ {cs : List Char}, c ∈ cs.dropWhile p → c ∈ cs := by
  intro cs h
  induction cs with
  | nil => exact absurd h (by simp)
  | cons d ds ih =>
    rw [List.dropWhile_cons] at h
    split_ifs at h
    · exact List.mem_cons_of_mem d (ih h)
    · exact h

theorem mem_pyStripList {c : Char} {cs : List Char} (h : c ∈ pyStripList cs) : c ∈ cs := by
  unfold pyStripList at h
  rw [List.mem_reverse] at h
  have h2 := mem_dropWhile_subset h
  rw [List.mem_reverse] at h2
  exact mem_dropWhile_subset h2

theorem nonDec_ge_128 {c : Char} (h : nonDecDigitChar c = true) : 128 ≤ c.toNat := by
  simp only [nonDecDigitChar, Bool.or_eq_true, beq_iff_eq, Bool.and_eq_true,
    decide_eq_true_eq] at h
  rcases h with ((((((h | h) | h) | h) | ⟨h, _⟩) | ⟨h, _⟩) | ⟨h, _⟩) <;> omega

theorem digitChar_ascii {c : Char} (h : pyDigitChar c = true) (ha : c.toNat < 128) :
    c.isDigit = true := by
  simp only [pyDigitChar, Bool.or_eq_true] at h
  rcases h with h | h
  · exact h
  · exact absurd (nonDec_ge_128 h) (by omega)

theorem digit_ne {c d : Char} (h : c.isDigit = true) (hd : d.isDigit = false) : c ≠ d := by
  intro he
  rw [he, hd] at h
  exact Bool.false_ne_true h

theorem intDigitsRest_of_digits (ds : List Char) (h : ∀ c ∈ ds, c.isDigit = true) :
    intDigitsRest ds = true := by
  induction ds with
  | nil => rfl
  | cons d rest ih =>
    unfold intDigitsRest
    rw [if_neg (digit_ne (h d (by simp)) (by decide))]
    rw [h d (by simp), ih fun x hx => h x (by simp [hx])]
    rfl

theorem intDigits_of_digits (c : Char) (ds : List Char)
    (h : ∀ x ∈ c :: ds, x.isDigit = true) : intDigits (c :: ds) = true := by
  unfold intDigits
  dsimp only
  rw [h c (by simp), intDigitsRest_of_digits ds fun x hx => h x (by simp [hx])]
  rfl

theorem filter_underscore_digits (cs : List Char) (h : ∀ c ∈ cs, c.isDigit = true) :
    (cs.filter fun c => c != '_') = cs := by
  induction cs with
  | nil => rfl
  | cons c rest ih =>
    rw [List.filter_cons]
    rw [if_pos (by simpa using digit_ne (h c (by simp)) (by decide))]
    rw [ih fun x hx => h x (by simp [hx])]

theorem pyIntOfString_digits (u : String) (h1 : u.data ≠ [])
    (h2 : ∀ c ∈ u.data, c.isDigit = true) :
    pyIntOfString u = some ((strToNat u.data : Nat) : Int) := by
  unfold pyIntOfString
  rw [pyStripList_eq_self fun c hc => digit_not_space (h2 c hc)]
  cases hd : u.data with
  | nil => exact absurd hd h1
  | cons c ds =>
    rw [hd] at h2
    have hc := h2 c (by simp)
    dsimp only
    rw [if_neg (digit_ne hc (by decide)), if_neg (digit_ne hc (by decide)),
      if_pos (intDigits_of_digits c ds h2)]
    unfold intVal
    rw [filter_underscore_digits _ h2]

theorem isEmpty_false_ne_nil {cs : List Char} (h : cs.isEmpty = false) : cs ≠ [] := by
  cases cs
  · simp at h
  · simp

theorem parse_ok_of_ascii (s : String) (h : ∀ c ∈ s.data, c.toNat < 128) :
    ∃ pr, parse_civitai_input s = .ok pr := by
  unfold parse_civitai_input
  by_cases ht : pyStripStr s = ""
  · rw [if_pos ht]
    exact ⟨_, rfl⟩
  · rw [if_neg ht]
    cases hair : airSearch (pyStripStr s).data with
    | some mv =>
      obtain ⟨m, v⟩ := mv
      exact ⟨_, rfl⟩
    | none =>
      by_cases hdig : pyIsDigitStr (pyStripStr s).data = true
      · rw [hdig, if_pos rfl]
        have hdec := hdig
        simp only [pyIsDigitStr, Bool.and_eq_true, List.all_eq_true, Bool.not_eq_true'] at hdec
        have hall : ∀ c ∈ (pyStripStr s).data, c.isDigit = true := by
          intro c hc
          exact digitChar_ascii (hdec.2 c hc) (h c (mem_pyStripList hc))
        rw [pyIntOfString_digits (pyStripStr s) (isEmpty_false_ne_nil hdec.1) hall]
        exact ⟨_, rfl⟩
      · rw [if_neg hdig]
        cases hub : urlBranch (pyStripStr s) with
        | ok r => exact ⟨_, rfl⟩
        | error e => exact ⟨_, rfl⟩

/-! ### Claims about the identifier parser -/

/-- C5: for every compound input `prefix ++ digits ++ "@" ++ digits`, where
the prefix is any of the optional URN / platform prefixes (or absent),
`parse_civitai_input` returns the two digit groups as
`(model_id, version_id)`; the compound branch fires regardless of prefix
presence and is not shadowed by the plain-integer or URL branches. -/
theorem C5_compound_pattern (p ms vs : List Char)
    (hp : p ∈ ([[], "civitai:".data, "urn:air:sdxl:lora:".data,
      "urn:air:sdxl:lora:civitai:".data] : List (List Char)))
    (hms : ms ≠ []) (hvs : vs ≠ [])
    (hdm : ∀ c ∈ ms, c.isDigit = true) (hdv : ∀ c ∈ vs, c.isDigit = true) :
    parse_civitai_input (String.mk (p ++ ms ++ '@' :: vs)) =
      .ok (some (strToNat ms : Int), some (strToNat vs : Int)) := by
  have hp4 : p = [] ∨ p = "civitai:".data ∨ p = "urn:air:sdxl:lora:".data ∨
      p = "urn:air:sdxl:lora:civitai:".data := by simpa using hp
  have hpd : ∀ c ∈ p, c.isDigit = false := by
    rcases hp4 with rfl | rfl | rfl | rfl <;> decide
  have hpns : ∀ c ∈ p, pySpace c = false := by
    rcases hp4 with rfl | rfl | rfl | rfl <;> decide
  have hnsp : ∀ c ∈ p ++ ms ++ '@' :: vs, pySpace c = false := by
    intro c hc
    rcases List.mem_append.mp hc with hc2 | hc2
    · rcases List.mem_append.mp hc2 with hc3 | hc3
      · exact hpns c hc3
      · exact digit_not_space (hdm c hc3)
    · rcases List.mem_cons.mp hc2 with rfl | hc3
      · decide
      · exact digit_not_space (hdv c hc3)
  have hne : p ++ ms ++ '@' :: vs ≠ [] := by
    simp [List.append_eq_nil]
  have hstrip : pyStripList (String.mk (p ++ ms ++ '@' :: vs)).data = p ++ ms ++ '@' :: vs :=
    pyStripList_eq_self hnsp
  simp only [parse_civitai_input, pyStripStr, hstrip]
  rw [if_neg (string_mk_ne_empty hne)]
  have hsearch : airSearch (String.mk (p ++ ms ++ '@' :: vs)).data =
      some (strToNat ms, strToNat vs) := by
    show airSearch (p ++ ms ++ '@' :: vs) = _
    rw [List.append_assoc, airSearch_append_nondigit hpd,
      airSearch_compound hms hvs hdm hdv]
  rw [hsearch]

/-- C5 witness at the fully prefixed concrete input. -/
theorem C5_compound_pattern_witness :
    parse_civitai_input "urn:air:sdxl:lora:civitai:12@34" = .ok (some 12, some 34) := by
  have h := C5_compound_pattern "urn:air:sdxl:lora:civitai:".data "12".data "34".data
    (by decide) (by decide) (by decide) (by decide) (by decide)
  have h2 : String.mk ("urn:air:sdxl:lora:civitai:".data ++ "12".data ++ '@' :: "34".data) =
      "urn:air:sdxl:lora:civitai:12@34" := by decide
  have h3 : (strToNat "12".data : Int) = 12 := by decide
  have h4 : (strToNat "34".data : Int) = 34 := by decide
  rw [h2, h3, h4] at h
  exact h

/-- C6: for every nonempty all-digits input, `parse_civitai_input` returns
the numeric value as a bare model id and no version id. -/
theorem C6_digit_only (cs : List Char) (h1 : cs ≠ [])
    (h2 : ∀ c ∈ cs, c.isDigit = true) :
    parse_civitai_input (String.mk cs) = .ok (some (strToNat cs : Int), Option.none) := by
  have hnsp : ∀ c ∈ cs, pySpace c = false := fun c hc => digit_not_space (h2 c hc)
  have hstrip : pyStripList (String.mk cs).data = cs := pyStripList_eq_self hnsp
  simp only [parse_civitai_input, pyStripStr, hstrip]
  rw [if_neg (string_mk_ne_empty h1)]
  have hsearch : airSearch (String.mk cs).data = Option.none := airSearch_all_digits h2
  rw [hsearch]
  have hemp : cs.isEmpty = false := by
    cases cs
    · exact absurd rfl h1
    · rfl
  have hdig : pyIsDigitStr (String.mk cs).data = true := by
    show pyIsDigitStr cs = true
    simp only [pyIsDigitStr, hemp, Bool.not_false, Bool.true_and, List.all_eq_true]
    intro x hx
    simp [pyDigitChar, h2 x hx]
  rw [hdig, if_pos rfl]
  rw [pyIntOfString_digits (String.mk cs) h1 h2]

/-- C6 witness at `"007"` (leading zeros included). -/
theorem C6_digit_only_witness : parse_civitai_input "007" = .ok (some 7, Option.none) := by
  have h := C6_digit_only "007".data (by decide) (by decide)
  have h2 : String.mk "007".data = "007" := by decide
  have h3 : (strToNat "007".data : Int) = 7 := by decide
  rw [h2, h3] at h
  exact h

/-- C7: URL inputs: a `/models/123` path with no query yields
`(123, null)`; a `/model-versions/456` path yields `(null, 456)`; a
`modelVersionId=456` query together with a `/models/123` path yields
`(123, 456)`. -/
theorem C7_url_inputs :
    parse_civitai_input "https://civitai.com/models/123" = .ok (some 123, Option.none) ∧
    parse_civitai_input "https://civitai.com/model-versions/456" = .ok (Option.none, some 456) ∧
    parse_civitai_input "https://civitai.com/models/123?modelVersionId=456" =
      .ok (some 123, some 456) :=
  ⟨rfl, rfl, rfl⟩

/-- C2 counterexample: the parser is NOT total.  The superscript two
`'²'` passes `str.isdigit()` but `int()` rejects it, and the bare-digits
branch at lines 49-50 sits outside the `try`, so
`parse_civitai_input "²"` raises `ValueError` instead of returning an
identifier pair. -/
theorem C2_counterexample_raise :
    parse_civitai_input "²" = .error "ValueError: invalid literal for int() with base 10" :=
  rfl

/-- C2 (amended): the parser returns an identifier pair for every input
whose characters are ASCII (on those the `isdigit()`/`int()` divergence
cannot occur), and any exception raised in the URL branch is swallowed
and yields `(null, null)`.  Inputs passing `isdigit()` with a
non-decimal digit character make the `int()` at line 50 — outside the
`try` — raise `ValueError` uncaught. -/
theorem C2_total_ascii_and_swallows (s : String) :
    ((∀ c ∈ s.data, c.toNat < 128) → ∃ pr, parse_civitai_input s = .ok pr) ∧
    (airSearch (pyStripStr s).data = Option.none →
      pyIsDigitStr (pyStripStr s).data = false →
      ∀ e, urlBranch (pyStripStr s) = .error e →
        parse_civitai_input s = .ok (Option.none, Option.none)) := by
  refine ⟨parse_ok_of_ascii s, ?_⟩
  intro hair hdig e hurl
  unfold parse_civitai_input
  by_cases ht : pyStripStr s = ""
  · rw [if_pos ht]
  · rw [if_neg ht, hair, hdig, hurl]
    simp

/-- C2 witness: a URL whose `modelVersionId` value is not numeric makes
`int()` raise inside the `try`; the ASCII-input parser returns the pair
`(null, null)`. -/
theorem C2_total_ascii_and_swallows_witness :
    (∃ pr, parse_civitai_input "http://x/?modelVersionId=abc" = .ok pr) ∧
    parse_civitai_input "http://x/?modelVersionId=abc" = .ok (Option.none, Option.none) :=
  ⟨(C2_total_ascii_and_swallows "http://x/?modelVersionId=abc").1 (by decide),
    (C2_total_ascii_and_swallows "http://x/?modelVersionId=abc").2 (by decide) (by decide)
      "ValueError: invalid literal for int() with base 10" rfl⟩

/-- C10: the input `"0"` parses to `(0, null)`, yet the resolver's
truthiness-based presence checks treat the id 0 as absent, so
`get_civitai_details` returns the parse-failure error without attempting
any resolution (the result is the same for every API oracle). -/
theorem C10_zero_treated_as_absent :
    parse_civitai_input "0" = .ok (some 0, Option.none) ∧
    ∀ orc : Orc, get_civitai_details orc "0" =
      .ok (errdict "Não foi possível extrair um ID de modelo ou versão válido da entrada.") :=
  ⟨rfl, fun _ => rfl⟩

/-- C10 witness at a concrete oracle that could resolve id 0 if asked. -/
theorem C10_zero_treated_as_absent_witness :
    get_civitai_details orcA "0" =
      .ok (errdict "Não foi possível extrair um ID de modelo ou versão válido da entrada.") :=
  C10_zero_treated_as_absent.2 orcA

/-! ### Shape lemmas for the resolver -/

theorem adopt_shape (orc : Orc) (m v : PyVal) (hO : OracleOK orc)
    (hmv : pyTruthy m = true ∨ pyTruthy v = true)
    (hm : pyTruthy m = true → ∃ n : Int, m = .int n) :
    (∃ s, adoptModelId orc m v = .ok (.inl (errdict s))) ∨
      (∃ n : Int, adoptModelId orc m v = .ok (.inr (.int n))) := by
  unfold adoptModelId
  by_cases hc : (!pyTruthy m && pyTruthy v) = true
  · rw [if_pos hc]
    cases hov : orc.version v with
    | none => exact Or.inl ⟨_, rfl⟩
    | some temp =>
      have hvr := hO.2 v temp hov
      dsimp only
      by_cases ht : pyTruthy temp = true
      · rw [if_pos ht]
        obtain ⟨kvs, rfl⟩ := hvr.1
        cases hlk : dictLookup kvs "modelId" with
        | none =>
          simp only [pyIn, hlk, Option.isSome_none]
          exact Or.inl ⟨_, rfl⟩
        | some mid =>
          obtain ⟨n, rfl⟩ := hvr.2.1 mid (by simpa [pyLookup] using hlk)
          simp only [pyIn, hlk, Option.isSome_some, pyGetItemS]
          exact Or.inr ⟨n, rfl⟩
      · rw [if_neg ht]
        exact Or.inl ⟨_, rfl⟩
  · rw [if_neg hc]
    cases ha : pyTruthy m with
    | true =>
      obtain ⟨n, rfl⟩ := hm ha
      exact Or.inr ⟨n, rfl⟩
    | false =>
      exfalso
      rcases hmv with h | h
      · rw [ha] at h
        exact Bool.false_ne_true h
      · exact hc (by rw [ha, h]; rfl)

theorem string_ne_empty_length_pos {s : String} (h : s ≠ "") : 0 < s.length := by
  cases hd : s.data with
  | nil =>
    exfalso
    apply h
    cases s
    simp at hd
    rw [hd]
  | cons c cs =>
    have : s.length = s.data.length := rfl
    rw [this, hd]
    simp

theorem defaultVersion_shape (mi v : PyVal) :
    (∃ e, defaultVersion mi v = .error e) ∨
      (∃ s, defaultVersion mi v = .ok (.inl (errdict s))) ∨
      (∃ v1, defaultVersion mi v = .ok (.inr v1) ∧ pyTruthy v1 = true) := by
  unfold defaultVersion
  by_cases hv : (!pyTruthy v) = true
  · rw [if_pos hv]
    cases mi with
    | dict kvs =>
      simp only [pyGet]
      cases hl : dictLookup kvs "modelVersions" with
      | none =>
        simp only [Option.getD_none]
        rw [if_neg (by decide)]
        exact Or.inr (Or.inl ⟨_, rfl⟩)
      | some mv =>
        simp only [Option.getD_some]
        by_cases hmv : pyTruthy mv = true
        · rw [if_pos hmv]
          simp only [pyGetItemS, hl]
          cases mv with
          | null => exact absurd hmv (by decide)
          | int n => exact Or.inl ⟨_, rfl⟩
          | str s =>
            have hsne : s ≠ "" := by
              dsimp only [pyTruthy] at hmv
              simpa using hmv
            simp only [pyLen]
            rw [if_pos (string_ne_empty_length_pos hsne)]
            cases hd : s.data with
            | nil =>
              exfalso
              apply hsne
              cases s
              simp at hd
              rw [hd]
            | cons c cs =>
              simp only [pyGetIdx0, hd, pyGet]
              exact Or.inl ⟨_, rfl⟩
          | list xs =>
            cases xs with
            | nil => exact absurd hmv (by decide)
            | cons x xs2 =>
              simp only [pyLen, pyGetIdx0]
              rw [if_pos (by simp)]
              cases x with
              | dict kvs2 =>
                simp only [pyGet]
                by_cases hvid : pyTruthy ((dictLookup kvs2 "id").getD .null) = true
                · rw [if_pos hvid]
                  exact Or.inr (Or.inr ⟨_, rfl, hvid⟩)
                · rw [if_neg hvid]
                  exact Or.inr (Or.inl ⟨_, rfl⟩)
              | null => exact Or.inl ⟨_, rfl⟩
              | int n => exact Or.inl ⟨_, rfl⟩
              | str s => exact Or.inl ⟨_, rfl⟩
              | list ys => exact Or.inl ⟨_, rfl⟩
          | dict kvs2 =>
            cases kvs2 with
            | nil => exact absurd hmv (by decide)
            | cons kv kvs3 =>
              simp only [pyLen, pyGetIdx0]
              rw [if_pos (by simp)]
              exact Or.inl ⟨_, rfl⟩
        · rw [if_neg hmv]
          exact Or.inr (Or.inl ⟨_, rfl⟩)
    | null => exact Or.inl ⟨_, rfl⟩
    | int n => exact Or.inl ⟨_, rfl⟩
    | str s => exact Or.inl ⟨_, rfl⟩
    | list xs => exact Or.inl ⟨_, rfl⟩
  · rw [if_neg hv]
    refine Or.inr (Or.inr ⟨v, rfl, ?_⟩)
    cases hb : pyTruthy v
    · exact absurd (by rw [hb]; rfl) hv
    · rfl

theorem bang_truthy_false {x : PyVal} (h : pyTruthy x = true) :
    ¬((!pyTruthy x) = true) := by
  rw [h]
  decide

theorem bang_truthy_true {x : PyVal} (h : ¬pyTruthy x = true) : (!pyTruthy x) = true := by
  cases hb : pyTruthy x
  · rfl
  · exact absurd hb h

theorem tryBlock_shape (orc : Orc) (m v : PyVal) (hO : OracleOK orc)
    (hmv : pyTruthy m = true ∨ pyTruthy v = true)
    (hm : pyTruthy m = true → ∃ n : Int, m = .int n) :
    (∃ e, tryBlock orc m v = .error e) ∨
      (∃ s, tryBlock orc m v = .ok (.inl (errdict s))) ∨
      (∃ mi n vi v1, tryBlock orc m v = .ok (.inr (mi, .int n, vi, v1)) ∧
        ModelRecOK mi ∧ VersionRecOK vi ∧ pyTruthy v1 = true) := by
  unfold tryBlock
  rcases adopt_shape orc m v hO hmv hm with ⟨s, hs⟩ | ⟨n, hn⟩
  · rw [hs]
    exact Or.inr (Or.inl ⟨s, rfl⟩)
  · rw [hn]
    dsimp only
    cases hom : orc.model (.int n) with
    | none => exact Or.inr (Or.inl ⟨_, rfl⟩)
    | some mi =>
      have hmr := hO.1 (.int n) mi hom
      dsimp only
      by_cases hti : pyTruthy mi = true
      · rw [if_neg (bang_truthy_false hti)]
        obtain ⟨kvsm, hkm⟩ := hmr.1
        have hin : pyIn "error" mi = .ok (dictLookup kvsm "error").isSome := by
          rw [hkm]; rfl
        rw [hin]
        cases hke : dictLookup kvsm "error" with
        | some x =>
          simp only [Option.isSome_some]
          exact Or.inr (Or.inl ⟨_, rfl⟩)
        | none =>
          simp only [Option.isSome_none]
          rcases defaultVersion_shape mi v with ⟨e, he⟩ | ⟨s, hs⟩ | ⟨v1, hv1, htv1⟩
          · rw [he]
            exact Or.inl ⟨e, rfl⟩
          · rw [hs]
            exact Or.inr (Or.inl ⟨s, rfl⟩)
          · rw [hv1]
            dsimp only
            cases hov : orc.version v1 with
            | none => exact Or.inr (Or.inl ⟨_, rfl⟩)
            | some vi =>
              have hvr := hO.2 v1 vi hov
              dsimp only
              by_cases htv : pyTruthy vi = true
              · rw [if_neg (bang_truthy_false htv)]
                obtain ⟨kvsv, hkv⟩ := hvr.1
                have hinv : pyIn "error" vi = .ok (dictLookup kvsv "error").isSome := by
                  rw [hkv]; rfl
                rw [hinv]
                cases hkev : dictLookup kvsv "error" with
                | some x =>
                  simp only [Option.isSome_some]
                  exact Or.inr (Or.inl ⟨_, rfl⟩)
                | none =>
                  simp only [Option.isSome_none]
                  exact Or.inr (Or.inr ⟨mi, n, vi, v1, rfl, hmr, hvr, htv1⟩)
              · rw [if_pos (bang_truthy_true htv)]
                exact Or.inr (Or.inl ⟨_, rfl⟩)
      · rw [if_pos (bang_truthy_true hti)]
        exact Or.inr (Or.inl ⟨_, rfl⟩)

theorem StrList_nil : StrList (.list []) := ⟨[], rfl, by simp⟩

theorem buildBundle_shape (mi m1 vi v1 : PyVal) (hmi : ModelRecOK mi)
    (hvi : VersionRecOK vi) :
    ∃ mn vn ds tw, buildBundle mi m1 vi v1 =
      .ok (.dict [("model_name", mn), ("version_name", vn), ("model_id", m1),
        ("version_id", v1), ("air_id", .str (pyStr m1 ++ "@" ++ pyStr v1)),
        ("description", .str ds), ("trained_words", tw)]) ∧ StrList tw := by
  obtain ⟨kvsm, rfl⟩ := hmi.1
  obtain ⟨kvsv, rfl⟩ := hvi.1
  unfold buildBundle
  simp only [pyGet]
  have hdesc : ∃ ds, (if pyTruthy ((dictLookup kvsm "description").getD .null) = true then
      match (dictLookup kvsm "description").getD .null with
      | .str s => Except.ok (String.mk (pyStripList (stripTags s.data)))
      | _ => Except.error "TypeError: expected string or bytes-like object"
    else Except.ok "Nenhuma descrição fornecida.") = Except.ok ds := by
    cases hld : dictLookup kvsm "description" with
    | none =>
      simp only [Option.getD_none]
      rw [if_neg (by decide)]
      exact ⟨_, rfl⟩
    | some d =>
      simp only [Option.getD_some]
      rcases hmi.2 d (by simpa [pyLookup] using hld) with rfl | ⟨s, rfl⟩
      · rw [if_neg (by decide)]
        exact ⟨_, rfl⟩
      · by_cases hts : pyTruthy (.str s) = true
        · rw [if_pos hts]
          exact ⟨_, rfl⟩
        · rw [if_neg hts]
          exact ⟨_, rfl⟩
  obtain ⟨ds, hds⟩ := hdesc
  rw [hds]
  refine ⟨_, _, ds, _, rfl, ?_⟩
  cases hlt : dictLookup kvsv "trainedWords" with
  | none =>
    simp only [Option.getD_none]
    exact StrList_nil
  | some tw =>
    simp only [Option.getD_some]
    exact hvi.2.2 tw (by simpa [pyLookup] using hlt)

theorem gcd_shape (orc : Orc) (link : String) (hO : OracleOK orc) :
    (∃ e, parse_civitai_input link = .error e ∧ get_civitai_details orc link = .error e) ∨
      (∃ d, get_civitai_details orc link = .ok d ∧ (IsErrDict d ∨ GoodBundle d)) := by
  cases hp : parse_civitai_input link with
  | error e =>
    refine Or.inl ⟨e, rfl, ?_⟩
    unfold get_civitai_details
    rw [hp]
  | ok ids =>
    obtain ⟨mo, vo⟩ := ids
    right
    unfold get_civitai_details
    rw [hp]
    dsimp only
    by_cases hc : (!pyTruthy (optToPy mo) && !pyTruthy (optToPy vo)) = true
    · rw [if_pos hc]
      exact ⟨_, rfl, Or.inl ⟨_, rfl⟩⟩
    · rw [if_neg hc]
      have hmv : pyTruthy (optToPy mo) = true ∨ pyTruthy (optToPy vo) = true := by
        cases h1 : pyTruthy (optToPy mo)
        · cases h2 : pyTruthy (optToPy vo)
          · exact absurd (by rw [h1, h2]; rfl) hc
          · exact Or.inr rfl
        · exact Or.inl rfl
      have hm : pyTruthy (optToPy mo) = true → ∃ n : Int, optToPy mo = .int n := by
        intro ht
        cases mo with
        | none => exact absurd ht (by decide)
        | some k => exact ⟨k, rfl⟩
      rcases tryBlock_shape orc _ _ hO hmv hm with ⟨e, he⟩ | ⟨s, hs⟩ | ⟨mi, n, vi, v1, ht, hmr, hvr, htv⟩
      · rw [he]
        exact ⟨_, rfl, Or.inl ⟨_, rfl⟩⟩
      · rw [hs]
        exact ⟨_, rfl, Or.inl ⟨_, rfl⟩⟩
      · rw [ht]
        dsimp only
        obtain ⟨mn, vn, ds, tw, hb, hsl⟩ := buildBundle_shape mi (.int n) vi v1 hmr hvr
        rw [hb]
        exact ⟨_, rfl, Or.inr ⟨mn, vn, n, v1, ds, tw, rfl, hsl, htv⟩⟩

/-! ### Claim C3 -/

/-- C3: whenever the resolver returns a success bundle (no `error` key),
both ids are non-null and `air_id` is the string `model_id ++ "@" ++
version_id`; moreover, when only a version id is resolvable and the
version record lacks `modelId`, and when the model's version list is
empty, the resolver returns an error dict instead of a partially-null
bundle. -/
theorem C3_bundle_invariant :
    (∀ orc link d, OracleOK orc → get_civitai_details orc link = .ok d →
      pyLookup d "error" = Option.none →
      ∃ mid vid, pyLookup d "model_id" = some mid ∧ mid ≠ .null ∧
        pyLookup d "version_id" = some vid ∧ vid ≠ .null ∧
        pyLookup d "air_id" = some (.str (pyStr mid ++ "@" ++ pyStr vid))) ∧
    (∀ orc link m v, OracleOK orc → parse_civitai_input link = .ok (m, v) →
      pyTruthy (optToPy m) = false → pyTruthy (optToPy v) = true →
      (∀ rec, orc.version (optToPy v) = some rec → pyLookup rec "modelId" = Option.none) →
      get_civitai_details orc link = .ok (errdict
        ("Não foi possível encontrar o modelo para a versão ID " ++ pyStr (optToPy v) ++ "."))) ∧
    (∀ orc link m v mrec, OracleOK orc → parse_civitai_input link = .ok (m, v) →
      pyTruthy (optToPy m) = true → pyTruthy (optToPy v) = false →
      orc.model (optToPy m) = some mrec → pyTruthy mrec = true →
      pyLookup mrec "error" = Option.none →
      pyLookup mrec "modelVersions" = some (.list []) →
      get_civitai_details orc link = .ok (errdict "O modelo não tem nenhuma versão listada.")) := by
  refine ⟨?_, ?_, ?_⟩
  · intro orc link d hO hgcd herr
    rcases gcd_shape orc link hO with ⟨e, _, hge⟩ | ⟨d0, hg0, hshape⟩
    · rw [hgcd] at hge
      exact Except.noConfusion hge
    rw [hgcd] at hg0
    injection hg0 with hg0
    subst hg0
    rcases hshape with ⟨s, rfl⟩ | ⟨mn, vn, n, vv, ds, tw, rfl, hsl, htv⟩
    · simp [errdict, pyLookup, dictLookup] at herr
    · refine ⟨.int n, vv, ?_, by simp, ?_, truthy_ne_null htv, ?_⟩
      · simp [pyLookup, dictLookup]
      · simp [pyLookup, dictLookup]
      · simp [pyLookup, dictLookup]
  · intro orc link m v hO hparse hmF hvT hnomid
    have hadopt : adoptModelId orc (optToPy m) (optToPy v) =
        .ok (.inl (errdict
          ("Não foi possível encontrar o modelo para a versão ID " ++ pyStr (optToPy v) ++ "."))) := by
      unfold adoptModelId
      rw [if_pos (by rw [hmF, hvT]; rfl)]
      cases hov : orc.version (optToPy v) with
      | none => rfl
      | some rec =>
        have hvr := hO.2 _ rec hov
        obtain ⟨kvs, rfl⟩ := hvr.1
        dsimp only
        by_cases ht : pyTruthy (.dict kvs) = true
        · rw [if_pos ht]
          have hlk := hnomid _ hov
          simp only [pyLookup] at hlk
          simp only [pyIn, hlk, Option.isSome_none]
        · rw [if_neg ht]
    have htb : tryBlock orc (optToPy m) (optToPy v) =
        .ok (.inl (errdict
          ("Não foi possível encontrar o modelo para a versão ID " ++ pyStr (optToPy v) ++ "."))) := by
      unfold tryBlock
      rw [hadopt]
    unfold get_civitai_details
    rw [hparse]
    dsimp only
    rw [if_neg (by rw [hmF, hvT]; decide), htb]
  · intro orc link m v mrec hO hparse hmT hvF hmodel hmrT herr hmv
    obtain ⟨kvs, rfl⟩ := (hO.1 _ mrec hmodel).1
    simp only [pyLookup] at herr hmv
    have hadopt : adoptModelId orc (optToPy m) (optToPy v) = .ok (.inr (optToPy m)) := by
      unfold adoptModelId
      rw [if_neg (by rw [hmT, hvF]; decide)]
    have hdv : defaultVersion (.dict kvs) (optToPy v) =
        .ok (.inl (errdict "O modelo não tem nenhuma versão listada.")) := by
      unfold defaultVersion
      rw [if_pos (bang_truthy_true (by rw [hvF]; decide))]
      simp only [pyGet, hmv, Option.getD_some]
      rw [if_neg (by decide)]
    have htb : tryBlock orc (optToPy m) (optToPy v) =
        .ok (.inl (errdict "O modelo não tem nenhuma versão listada.")) := by
      unfold tryBlock
      rw [hadopt]
      dsimp only
      rw [hmodel]
      dsimp only
      rw [if_neg (bang_truthy_false hmrT)]
      simp only [pyIn, herr, Option.isSome_none]
      rw [hdv]
    unfold get_civitai_details
    rw [hparse]
    dsimp only
    rw [if_neg (by rw [hmT, hvF]; decide), htb]

/-! ### Well-typedness of the concrete oracles -/

theorem orcA_ok : OracleOK orcA := by
  constructor
  · intro k v h
    injection h with h
    subst h
    refine ⟨⟨_, rfl⟩, ?_⟩
    intro d hd
    rw [show pyLookup recMA "description" =
      some (.str "<p>Hello <b>world</b></p>") from rfl] at hd
    injection hd with hd
    exact Or.inr ⟨_, hd.symm⟩
  · intro k v h
    injection h with h
    subst h
    refine ⟨⟨_, rfl⟩, ?_, ?_⟩
    · intro x hx
      rw [show pyLookup recVA "modelId" = some (.int 12) from rfl] at hx
      injection hx with hx
      exact ⟨12, hx.symm⟩
    · intro x hx
      rw [show pyLookup recVA "trainedWords" = some (.list [.str "w1"]) from rfl] at hx
      injection hx with hx
      refine ⟨[.str "w1"], hx.symm, ?_⟩
      intro w hw
      simp at hw
      exact ⟨_, hw⟩

theorem orcB_ok : OracleOK orcB := by
  constructor
  · intro k v h
    injection h with h
    subst h
    refine ⟨⟨_, rfl⟩, ?_⟩
    intro d hd
    rw [show pyLookup (.dict [("name", .str "M")]) "description" = Option.none from rfl] at hd
    exact Option.noConfusion hd
  · intro k v h
    injection h with h
    subst h
    refine ⟨⟨_, rfl⟩, ?_, ?_⟩
    · intro x hx
      rw [show pyLookup (.dict [("name", .str "V")]) "modelId" = Option.none from rfl] at hx
      exact Option.noConfusion hx
    · intro x hx
      rw [show pyLookup (.dict [("name", .str "V")]) "trainedWords" = Option.none from rfl] at hx
      exact Option.noConfusion hx

theorem orcC_ok : OracleOK orcC := by
  constructor
  · intro k v h
    injection h with h
    subst h
    refine ⟨⟨_, rfl⟩, ?_⟩
    intro d hd
    rw [show pyLookup (.dict [("name", .str "M")]) "description" = Option.none from rfl] at hd
    exact Option.noConfusion hd
  · intro k v h
    injection h with h
    subst h
    refine ⟨⟨_, rfl⟩, ?_, ?_⟩
    · intro x hx
      rw [show pyLookup (.dict [("name", .str "V")]) "modelId" = Option.none from rfl] at hx
      exact Option.noConfusion hx
    · intro x hx
      rw [show pyLookup (.dict [("name", .str "V")]) "trainedWords" = Option.none from rfl] at hx
      exact Option.noConfusion hx

theorem orcD_ok : OracleOK orcD := by
  constructor
  · intro k v h
    injection h with h
    subst h
    refine ⟨⟨_, rfl⟩, ?_⟩
    intro d hd
    rw [show pyLookup (.dict [("name", .str "M"), ("modelVersions", .list [])])
      "description" = Option.none from rfl] at hd
    exact Option.noConfusion hd
  · intro k v h
    injection h with h
    subst h
    refine ⟨⟨_, rfl⟩, ?_, ?_⟩
    · intro x hx
      rw [show pyLookup (.dict [("name", .str "V")]) "modelId" = Option.none from rfl] at hx
      exact Option.noConfusion hx
    · intro x hx
      rw [show pyLookup (.dict [("name", .str "V")]) "trainedWords" = Option.none from rfl] at hx
      exact Option.noConfusion hx

theorem jlA_ok : LlmJsonOK jlA := by
  intro s v h
  simp only [jlA] at h
  split_ifs at h
  · injection h with h
    subst h
    refine ⟨⟨_, rfl⟩, ?_⟩
    intro k x hx
    exact Option.noConfusion hx

theorem jlC4_ok : LlmJsonOK jlC4 := by
  intro s v h
  simp only [jlC4] at h
  split_ifs at h
  · injection h with h
    subst h
    refine ⟨⟨_, rfl⟩, ?_⟩
    intro k x hx
    simp only [objC4, pyLookup, dictLookup] at hx
    split_ifs at hx
    · injection hx with hx
      exact ⟨_, hx.symm⟩
    · injection hx with hx
      exact ⟨_, hx.symm⟩

/-- C3 witness: the fully resolved bundle for `orcA` and input `"12@34"`
satisfies the invariant, and the two degenerate scenarios produce the
expected error dicts. -/
theorem C3_bundle_invariant_witness :
    (∃ mid vid, pyLookup (PyVal.dict [("model_name", .str "M"), ("version_name", .str "V"),
        ("model_id", .int 12), ("version_id", .int 34), ("air_id", .str "12@34"),
        ("description", .str "Hello world"), ("trained_words", .list [.str "w1"])])
        "model_id" = some mid ∧ mid ≠ .null ∧
      pyLookup (PyVal.dict [("model_name", .str "M"), ("version_name", .str "V"),
        ("model_id", .int 12), ("version_id", .int 34), ("air_id", .str "12@34"),
        ("description", .str "Hello world"), ("trained_words", .list [.str "w1"])])
        "version_id" = some vid ∧ vid ≠ .null ∧
      pyLookup (PyVal.dict [("model_name", .str "M"), ("version_name", .str "V"),
        ("model_id", .int 12), ("version_id", .int 34), ("air_id", .str "12@34"),
        ("description", .str "Hello world"), ("trained_words", .list [.str "w1"])])
        "air_id" = some (.str (pyStr mid ++ "@" ++ pyStr vid))) ∧
    get_civitai_details orcB "https://civitai.com/model-versions/456" =
      .ok (errdict "Não foi possível encontrar o modelo para a versão ID 456.") ∧
    get_civitai_details orcD "77" =
      .ok (errdict "O modelo não tem nenhuma versão listada.") := by
  refine ⟨?_, ?_, ?_⟩
  · exact C3_bundle_invariant.1 orcA "12@34" _ orcA_ok rfl rfl
  · exact C3_bundle_invariant.2.1 orcB "https://civitai.com/model-versions/456"
      Option.none (some 456) orcB_ok rfl rfl rfl
      (fun rec h => by injection h with h; subst h; rfl)
  · exact C3_bundle_invariant.2.2 orcD "77" (some 77) Option.none
      (.dict [("name", .str "M"), ("modelVersions", .list [])]) orcD_ok rfl rfl rfl rfl rfl rfl rfl

/-! ### Claims C8 and C9 -/

/-- C8: the resolver strips HTML tags from the model description
(`"<p>Hello <b>world</b></p>"` becomes `"Hello world"` in the bundle),
substitutes the fixed placeholder when no description exists, and defaults
trained words to the empty sequence when absent. -/
theorem C8_description_stripping :
    get_civitai_details orcA "12@34" =
      .ok (.dict [("model_name", .str "M"), ("version_name", .str "V"),
        ("model_id", .int 12), ("version_id", .int 34), ("air_id", .str "12@34"),
        ("description", .str "Hello world"), ("trained_words", .list [.str "w1"])]) ∧
    get_civitai_details orcC "12@34" =
      .ok (.dict [("model_name", .str "M"), ("version_name", .str "V"),
        ("model_id", .int 12), ("version_id", .int 34), ("air_id", .str "12@34"),
        ("description", .str "Nenhuma descrição fornecida."),
        ("trained_words", .list [])]) :=
  ⟨rfl, rfl⟩

/-- C9: with message content `noise {"character_name":"x"} trailing`, the
annotation client extracts the brace-delimited substring (first opening
brace to the last closing brace), feeds it to `json.loads`, and returns
the parsed object, ignoring the surrounding text. -/
theorem C9_brace_extraction (jl : String → Option PyVal)
    (hjl : jl "\x7b\"character_name\":\"x\"\x7d" = some objC9) :
    call_openrouter_api (.ok resultC9) jl = objC9 := by
  have h0 : callBody resultC9 jl =
      (match jl "\x7b\"character_name\":\"x\"\x7d" with
       | some parsed => Except.ok parsed
       | Option.none => Except.ok (.dict [("error", .str "Erro ao decodificar JSON da resposta"),
           ("raw_response", .str contentC9)])) := rfl
  unfold call_openrouter_api
  dsimp only
  rw [h0, hjl]

/-- C9 witness at a concrete `json.loads` oracle. -/
theorem C9_brace_extraction_witness : call_openrouter_api (.ok resultC9) jlC9 = objC9 :=
  C9_brace_extraction jlC9 rfl

/-! ### Shape of the annotation client's results -/

theorem LlmRespOK_errdict (msg : String) (raw : List (String × PyVal))
    (hraw : ∀ k, k ∈ slotKeys → dictLookup raw k = Option.none) :
    LlmRespOK (.dict (("error", .str msg) :: raw)) := by
  refine ⟨⟨_, rfl⟩, ?_, ?_⟩
  · intro x hx
    have hl : pyLookup (.dict (("error", .str msg) :: raw)) "error" = some (.str msg) := by
      simp [pyLookup, dictLookup]
    rw [hl] at hx
    injection hx with hx
    exact ⟨_, hx.symm⟩
  · intro k x hk hx
    have hkne : ("error" : String) ≠ k := by
      simp only [slotKeys, List.mem_cons, List.not_mem_nil, or_false] at hk
      rcases hk with rfl | rfl | rfl | rfl | rfl <;> decide
    have hl : pyLookup (.dict (("error", .str msg) :: raw)) k = dictLookup raw k := by
      simp [pyLookup, dictLookup, hkne]
    rw [hl, hraw k hk] at hx
    exact Option.noConfusion hx

theorem rawLookup_none (x : PyVal) :
    ∀ k, k ∈ slotKeys → dictLookup [("raw_response", x)] k = Option.none := by
  intro k hk
  simp only [slotKeys, List.mem_cons, List.not_mem_nil, or_false] at hk
  rcases hk with rfl | rfl | rfl | rfl | rfl <;> rfl

theorem LlmRespOK_parsed {jl : String → Option PyVal} (hjl : LlmJsonOK jl) {sub : String}
    {parsed : PyVal} (h : jl sub = some parsed) : LlmRespOK parsed := by
  obtain ⟨hd, hvals⟩ := hjl sub parsed h
  exact ⟨hd, fun x hx => hvals _ x hx, fun k x _ hx => hvals k x hx⟩

theorem callBody_shape (result : PyVal) (jl : String → Option PyVal) (hjl : LlmJsonOK jl) :
    (∃ e, callBody result jl = .error e) ∨
      (∃ r, callBody result jl = .ok r ∧ LlmRespOK r) := by
  unfold callBody
  dsimp only
  cases hin : pyIn "choices" result with
  | error e => exact Or.inl ⟨e, rfl⟩
  | ok b =>
    cases b with
    | false => exact Or.inr ⟨_, rfl, LlmRespOK_errdict _ _ (rawLookup_none result)⟩
    | true =>
      dsimp only
      cases hgc : pyGetItemS result "choices" with
      | error e => exact Or.inl ⟨e, rfl⟩
      | ok choices =>
        dsimp only
        cases hlen : pyLen choices with
        | error e => exact Or.inl ⟨e, rfl⟩
        | ok nn =>
          dsimp only
          by_cases hnn : nn > 0
          · rw [if_pos hnn]
            cases hidx : pyGetIdx0 choices with
            | error e => exact Or.inl ⟨e, rfl⟩
            | ok c0 =>
              dsimp only
              cases hmsg : pyGetItemS c0 "message" with
              | error e => exact Or.inl ⟨e, rfl⟩
              | ok msg =>
                dsimp only
                cases hcont : pyGetItemS msg "content" with
                | error e => exact Or.inl ⟨e, rfl⟩
                | ok content =>
                  dsimp only
                  cases content with
                  | str cs =>
                    dsimp only
                    cases hbe : braceExtract cs with
                    | none =>
                      exact Or.inr ⟨_, rfl, LlmRespOK_errdict _ _ (rawLookup_none _)⟩
                    | some sub =>
                      dsimp only
                      cases hjls : jl sub with
                      | none =>
                        exact Or.inr ⟨_, rfl, LlmRespOK_errdict _ _ (rawLookup_none _)⟩
                      | some parsed => exact Or.inr ⟨parsed, rfl, LlmRespOK_parsed hjl hjls⟩
                  | null => exact Or.inl ⟨_, rfl⟩
                  | int k => exact Or.inl ⟨_, rfl⟩
                  | list xs => exact Or.inl ⟨_, rfl⟩
                  | dict kvs => exact Or.inl ⟨_, rfl⟩
          · rw [if_neg hnn]
            exact Or.inr ⟨_, rfl, LlmRespOK_errdict _ _ (rawLookup_none result)⟩

theorem callapi_shape (http : Except String PyVal) (jl : String → Option PyVal)
    (hjl : LlmJsonOK jl) : LlmRespOK (call_openrouter_api http jl) := by
  unfold call_openrouter_api
  cases http with
  | error e =>
    dsimp only
    exact LlmRespOK_errdict _ [] (fun k _ => rfl)
  | ok result =>
    dsimp only
    rcases callBody_shape result jl hjl with ⟨e, he⟩ | ⟨r, hr, hok⟩
    · rw [he]
      exact LlmRespOK_errdict _ [] (fun k _ => rfl)
    · rw [hr]
      exact hok

/-! ### The user-content construction -/

theorem dashWords_ok (xs : List PyVal) (h : ∀ w ∈ xs, IsStr w) :
    ∃ ws, dashWords xs = .ok ws := by
  induction xs with
  | nil => exact ⟨[], rfl⟩
  | cons w ws ih =>
    obtain ⟨s, rfl⟩ := h w (by simp)
    obtain ⟨rest, hrest⟩ := ih fun x hx => h x (by simp [hx])
    exact ⟨("- " ++ s) :: rest, by unfold dashWords; rw [hrest]⟩

theorem buildUserContent_reduces (ai : String) (mn vn : PyVal) (n : Int) (vv : PyVal)
    (ds : String) (tws : List PyVal) :
    buildUserContent ai (.dict [("model_name", mn), ("version_name", vn),
      ("model_id", .int n), ("version_id", vv),
      ("air_id", .str (pyStr (.int n) ++ "@" ++ pyStr vv)),
      ("description", .str ds), ("trained_words", .list tws)]) =
      (match dashWords tws with
       | .error e => Except.error e
       | .ok words => Except.ok ("USER INFO: " ++ ai ++ "\nModelo: " ++ pyStr mn ++
           "\nVersão: " ++ pyStr vn ++ "\nID AIR: civitai:" ++
           (pyStr (.int n) ++ "@" ++ pyStr vv) ++
           "\n----------------------------------------\nDescrição:\n" ++ ds ++
           "\n----------------------------------------\nPalavras de Gatilho:\n" ++
           String.intercalate "\n" words)) := rfl

theorem buildUserContent_ok (ai : String) (mn vn : PyVal) (n : Int) (vv : PyVal)
    (ds : String) (tws : List PyVal) (htw : ∀ w ∈ tws, IsStr w) :
    ∃ uc, buildUserContent ai (.dict [("model_name", mn), ("version_name", vn),
      ("model_id", .int n), ("version_id", vv),
      ("air_id", .str (pyStr (.int n) ++ "@" ++ pyStr vv)),
      ("description", .str ds), ("trained_words", .list tws)]) = .ok uc := by
  obtain ⟨ws, hws⟩ := dashWords_ok tws htw
  rw [buildUserContent_reduces, hws]
  exact ⟨_, rfl⟩

theorem slotGet_isStr {kvsr : List (String × PyVal)}
    (h3 : ∀ k x, k ∈ slotKeys → pyLookup (.dict kvsr) k = some x → IsStr x)
    (k : String) (hk : k ∈ slotKeys) (dflt : String) :
    IsStr ((dictLookup kvsr k).getD (.str dflt)) := by
  cases hlk : dictLookup kvsr k with
  | none => exact ⟨dflt, rfl⟩
  | some x => exact h3 k x hk hlk

/-! ### Claim C1 -/

/-- C1 counterexample: the processing unit can let an exception escape
its boundary.  With the identifier input `"²"` (`isdigit()` true,
`int()` raises), the `ValueError` from line 50 propagates uncaught
through line 79 and line 222, so `process_civitai_info` raises instead of
returning a 6-tuple. -/
theorem C1_counterexample_raise :
    process_civitai_info orcA httpA jlA "²" "tk" "" "" =
      .error "ValueError: invalid literal for int() with base 10" :=
  rfl

/-- C1 (amended): for every combination of the four string inputs whose
identifier input contains only ASCII characters, and any well-typed
platform and `json.loads` behaviour, `process_civitai_info` never
raises: it returns a 6-tuple whose entries are all strings, and whenever
the resolver or the annotation stage produced an error value, the same
error string fills all six slots.  (For identifier inputs passing
`isdigit()` with a non-decimal digit character, the line-50 `ValueError`
escapes the boundary instead.) -/
theorem C1_never_raises_ascii (orc : Orc) (http : Except String PyVal)
    (jl : String → Option PyVal) (link tok ai sp : String)
    (hascii : ∀ c ∈ link.data, c.toNat < 128)
    (hO : OracleOK orc) (hjl : LlmJsonOK jl) :
    ∃ out, process_civitai_info orc http jl link tok ai sp = .ok out ∧
      out.length = 6 ∧ (∀ x ∈ out, IsStr x) ∧
      (((∃ d, get_civitai_details orc link = .ok d ∧ pyLookup d "error" ≠ Option.none) ∨
          pyLookup (call_openrouter_api http jl) "error" ≠ Option.none) →
        ∃ s, out = List.replicate 6 (PyVal.str s)) := by
  obtain ⟨pr, hpr⟩ := parse_ok_of_ascii link hascii
  rcases gcd_shape orc link hO with ⟨e, hpe, _⟩ | ⟨d, hg, hshape⟩
  · rw [hpr] at hpe
    exact Except.noConfusion hpe
  unfold process_civitai_info
  rw [hg]
  dsimp only
  rcases hshape with ⟨s, rfl⟩ | ⟨mn, vn, n, vv, ds, tw, rfl, hsl, htv⟩
  · rw [show pyIn "error" (errdict s) = Except.ok true from rfl]
    dsimp only
    rw [show pyGetItemS (errdict s) "error" = Except.ok (.str s) from rfl]
    dsimp only
    refine ⟨_, rfl, rfl, ?_, ?_⟩
    · intro x hx
      have hx2 : x = PyVal.str s := by simpa using hx
      exact ⟨s, hx2⟩
    · intro _
      exact ⟨s, rfl⟩
  · obtain ⟨tws, rfl, htws⟩ := hsl
    rw [show pyIn "error" (PyVal.dict [("model_name", mn), ("version_name", vn),
      ("model_id", .int n), ("version_id", vv),
      ("air_id", .str (pyStr (.int n) ++ "@" ++ pyStr vv)),
      ("description", .str ds), ("trained_words", .list tws)]) = Except.ok false from rfl]
    dsimp only
    obtain ⟨uc, huc⟩ := buildUserContent_ok ai mn vn n vv ds tws htws
    rw [huc]
    dsimp only
    have hresp := callapi_shape http jl hjl
    obtain ⟨kvsr, hkr⟩ := hresp.1
    rw [hkr]
    rw [show pyIn "error" (PyVal.dict kvsr) =
      Except.ok (dictLookup kvsr "error").isSome from rfl]
    cases hke : dictLookup kvsr "error" with
    | some ev =>
      simp only [Option.isSome_some]
      rw [show pyGetItemS (PyVal.dict kvsr) "error" =
        (match dictLookup kvsr "error" with
         | some x => Except.ok x
         | Option.none => Except.error ("KeyError: " ++ "error")) from rfl, hke]
      dsimp only
      obtain ⟨es, rfl⟩ := hresp.2.1 ev (by rw [hkr]; exact (by simpa [pyLookup] using hke))
      refine ⟨_, rfl, rfl, ?_, ?_⟩
      · intro x hx
        have hx2 : x = PyVal.str ("Erro LLM: " ++ pyStr (.str es)) := by simpa using hx
        exact ⟨_, hx2⟩
      · intro _
        exact ⟨_, rfl⟩
    | none =>
      simp only [Option.isSome_none]
      rw [show pyGetItemS (PyVal.dict [("model_name", mn), ("version_name", vn),
        ("model_id", .int n), ("version_id", vv),
        ("air_id", .str (pyStr (.int n) ++ "@" ++ pyStr vv)),
        ("description", .str ds), ("trained_words", .list tws)]) "air_id" =
        Except.ok (.str (pyStr (.int n) ++ "@" ++ pyStr vv)) from rfl]
      dsimp only
      rw [show pyGet (PyVal.dict kvsr) "character_name" (.str "unknown_character") =
        Except.ok ((dictLookup kvsr "character_name").getD (.str "unknown_character")) from rfl]
      dsimp only
      rw [show pyGet (PyVal.dict kvsr) "character_description" (.str "") =
        Except.ok ((dictLookup kvsr "character_description").getD (.str "")) from rfl]
      dsimp only
      rw [show pyGet (PyVal.dict kvsr) "s1" (.str "") =
        Except.ok ((dictLookup kvsr "s1").getD (.str "")) from rfl]
      dsimp only
      rw [show pyGet (PyVal.dict kvsr) "s2" (.str "") =
        Except.ok ((dictLookup kvsr "s2").getD (.str "")) from rfl]
      dsimp only
      rw [show pyGet (PyVal.dict kvsr) "s3" (.str "") =
        Except.ok ((dictLookup kvsr "s3").getD (.str "")) from rfl]
      dsimp only
      have h3 : ∀ k x, k ∈ slotKeys → pyLookup (.dict kvsr) k = some x → IsStr x :=
        fun k x hk hx => hresp.2.2 k x hk (by rw [hkr]; exact hx)
      refine ⟨_, rfl, rfl, ?_, ?_⟩
      · intro x hx
        simp only [List.mem_cons, List.not_mem_nil, or_false] at hx
        rcases hx with rfl | rfl | rfl | rfl | rfl | rfl
        · exact ⟨_, rfl⟩
        · exact slotGet_isStr h3 "character_name" (by simp [slotKeys]) _
        · exact slotGet_isStr h3 "character_description" (by simp [slotKeys]) _
        · exact slotGet_isStr h3 "s1" (by simp [slotKeys]) _
        · exact slotGet_isStr h3 "s2" (by simp [slotKeys]) _
        · exact slotGet_isStr h3 "s3" (by simp [slotKeys]) _
      · intro hant
        exfalso
        rcases hant with ⟨d0, hd0, hne⟩ | hne
        · injection hd0 with hd0
          subst hd0
          exact hne rfl
        · exact hne hke

/-- C1 witness at concrete ASCII inputs and oracles. -/
theorem C1_never_raises_ascii_witness :
    ∃ out, process_civitai_info orcA httpA jlA "12@34" "tk" "" "" = .ok out ∧
      out.length = 6 ∧ (∀ x ∈ out, IsStr x) ∧
      (((∃ d, get_civitai_details orcA "12@34" = .ok d ∧ pyLookup d "error" ≠ Option.none) ∨
          pyLookup (call_openrouter_api httpA jlA) "error" ≠ Option.none) →
        ∃ s, out = List.replicate 6 (PyVal.str s)) :=
  C1_never_raises_ascii orcA httpA jlA "12@34" "tk" "" "" (by decide) orcA_ok jlA_ok

/-! ### Claim C4 -/

/-- C4 counterexample: with a successful annotation whose JSON object
lacks `character_name`, the second output slot is `"unknown_character"`,
not the empty string the claim asserts for every absent key. -/
theorem C4_counterexample :
    process_civitai_info orcA httpA jlA "12@34" "tk" "" "" =
      .ok [.str "12@34", .str "unknown_character", .str "", .str "", .str "", .str ""] ∧
    PyVal.str "unknown_character" ≠ PyVal.str "" := by
  refine ⟨rfl, ?_⟩
  intro h
  injection h with h
  exact absurd h (by decide)

/-- C4 (amended): on a successful annotation the first slot is the
bundle's compound id and the remaining five come from the annotation
result, with `character_name` defaulting to `"unknown_character"` and the
other four keys defaulting to the empty string when absent. -/
theorem C4_success_mapping (orc : Orc) (http : Except String PyVal)
    (jl : String → Option PyVal) (link tok ai sp : String) (d : PyVal)
    (hO : OracleOK orc) (hjl : LlmJsonOK jl)
    (hg : get_civitai_details orc link = .ok d)
    (he : pyLookup d "error" = Option.none)
    (hllm : pyLookup (call_openrouter_api http jl) "error" = Option.none) :
    process_civitai_info orc http jl link tok ai sp = .ok
      [(pyLookup d "air_id").getD .null,
       (pyLookup (call_openrouter_api http jl) "character_name").getD (.str "unknown_character"),
       (pyLookup (call_openrouter_api http jl) "character_description").getD (.str ""),
       (pyLookup (call_openrouter_api http jl) "s1").getD (.str ""),
       (pyLookup (call_openrouter_api http jl) "s2").getD (.str ""),
       (pyLookup (call_openrouter_api http jl) "s3").getD (.str "")] := by
  rcases gcd_shape orc link hO with ⟨e, _, hge⟩ | ⟨d0, hg0, hshape⟩
  · rw [hg] at hge
    exact Except.noConfusion hge
  rw [hg] at hg0
  injection hg0 with hg0
  subst hg0
  rcases hshape with ⟨s, rfl⟩ | ⟨mn, vn, n, vv, ds, tw, rfl, hsl, htv⟩
  · exact absurd he (by simp [errdict, pyLookup, dictLookup])
  · obtain ⟨tws, rfl, htws⟩ := hsl
    obtain ⟨uc, huc⟩ := buildUserContent_ok ai mn vn n vv ds tws htws
    obtain ⟨kvsr, hkr⟩ := (callapi_shape http jl hjl).1
    have hke : dictLookup kvsr "error" = Option.none := by
      rw [hkr] at hllm
      exact hllm
    unfold process_civitai_info
    rw [hg]
    dsimp only
    rw [show pyIn "error" (PyVal.dict [("model_name", mn), ("version_name", vn),
      ("model_id", .int n), ("version_id", vv),
      ("air_id", .str (pyStr (.int n) ++ "@" ++ pyStr vv)),
      ("description", .str ds), ("trained_words", .list tws)]) = Except.ok false from rfl]
    dsimp only
    rw [huc]
    dsimp only
    rw [hkr]
    rw [show pyIn "error" (PyVal.dict kvsr) =
      Except.ok (dictLookup kvsr "error").isSome from rfl, hke]
    rfl

/-- C4 witness for the amended mapping, at a concrete annotation object
`\x7b"character_name":"zoe","s1":"a"\x7d`. -/
theorem C4_success_mapping_witness :
    process_civitai_info orcA httpC4 jlC4 "12@34" "tk" "" "x" =
      .ok [.str "12@34", .str "zoe", .str "", .str "a", .str "", .str ""] := by
  have h := C4_success_mapping orcA httpC4 jlC4 "12@34" "tk" "" "x" _ orcA_ok jlC4_ok rfl rfl rfl
  exact h

end Packreator
